import Mathlib

/-!
Verification of the schema-normalization layer of the caresphere prescription
comprehension service (`src/services/validation_service.py`, DTOs from
`src/models/dto.py`).

Python runtime values produced by JSON parsing are shallowly embedded as
`PyVal`:  dicts are association lists of string keys preserving insertion
order, floats are modelled as rationals (the normalizer only compares them to
zero and passes them through), and the pydantic `SupplierBillDto` objects that
`validate_supplier_bill_data` returns appear as the opaque `.obj` constructor
(an object is not a mapping, so feeding it back into a normalizer makes the
initial `\x7b**defaults, **data\x7d` merge raise, exactly as in Python).
-/

/-- `SupplierDto` from `src/models/dto.py`: `name` is required, the other
nine fields are `Optional[str]` defaulting to `None`. -/
structure SupplierDto where
  name : String
  gst_number : Option String := Option.none
  address_line1 : Option String := Option.none
  address_line2 : Option String := Option.none
  city : Option String := Option.none
  state : Option String := Option.none
  phone : Option String := Option.none
  email : Option String := Option.none
  contact_person_name : Option String := Option.none
  contact_person_phone : Option String := Option.none
deriving DecidableEq, Repr

/-- `BuyFromSupplierMedicineDto` from `src/models/dto.py`. -/
structure BuyFromSupplierMedicineDto where
  medicine_name : String
  dosage : String
  quantity : Int
  mrp : Rat
  buying_price : Rat
  selling_price : Rat
  expiry_date : String
  batch_number : Option String := Option.none
  manufacturer : Option String := Option.none
deriving DecidableEq, Repr

/-- `SupplierBillDto` from `src/models/dto.py`. -/
structure SupplierBillDto where
  supplier : SupplierDto
  bill_number : String
  medicines : List BuyFromSupplierMedicineDto
deriving DecidableEq, Repr

/-- Python runtime values reaching the validation service: `None`, booleans,
ints, floats (as rationals), strings, lists, string-keyed dicts (association
lists in insertion order, as produced by `json.loads`), and — solely so that a
returned `SupplierBillDto` can be re-fed to a normalizer — opaque pydantic
bill objects. -/
inductive PyVal where
  | none
  | bool (b : Bool)
  | int (n : Int)
  | float (q : Rat)
  | str (s : String)
  | list (xs : List PyVal)
  | dict (kvs : List (String × PyVal))
  | obj (b : SupplierBillDto)

/-- `d[k]` lookup: first binding of `k`, if any. -/
def dget : List (String × PyVal) → String → Option PyVal
  | [], _ => Option.none
  | (k', v) :: rest, k => if k' = k then some v else dget rest k

/-- `d[k] = v` assignment on a Python dict: an existing key keeps its
position, a new key is appended. -/
def dset (d : List (String × PyVal)) (k : String) (v : PyVal) : List (String × PyVal) :=
  if (dget d k).isSome then
    d.map (fun kv => if kv.1 = k then (k, v) else kv)
  else
    d ++ [(k, v)]

/-- `\x7b**a, **b\x7d`: keys of `a` in order with values overridden by `b`,
followed by the keys of `b` not in `a` in `b`'s order. -/
def dmerge (a b : List (String × PyVal)) : List (String × PyVal) :=
  a.map (fun kv => (kv.1, (dget b kv.1).getD kv.2)) ++
    b.filter (fun kv => (dget a kv.1).isNone)

/-- Key list of a dict. -/
def keys (d : List (String × PyVal)) : List String := d.map Prod.fst

/-- Field projection on an arbitrary value: lookup when it is a dict. -/
def getField (v : PyVal) (k : String) : Option PyVal :=
  match v with
  | .dict kvs => dget kvs k
  | _ => Option.none

/-- Python truthiness (`bool(x)`): `None`, `False`, zero, empty string /
list / dict are falsy; a pydantic model object is truthy. -/
def pyTruthy : PyVal → Bool
  | .none => false
  | .bool b => b
  | .int n => n != 0
  | .float q => q != 0
  | .str s => !s.isEmpty
  | .list xs => !xs.isEmpty
  | .dict kvs => !kvs.isEmpty
  | .obj _ => true

/-- Whitespace ignored around numeric literals by `int()`/`float()`. -/
def isSpaceChar (c : Char) : Bool :=
  c = ' ' || c = '\t' || c = '\n' || c = '\r'

/-- Strip leading and trailing whitespace from a character list. -/
def trimChars (cs : List Char) : List Char :=
  ((cs.dropWhile isSpaceChar).reverse.dropWhile isSpaceChar).reverse

/-- Accumulate the value of a digit run, failing on a non-digit. -/
def digitsValGo : Nat → List Char → Option Nat
  | acc, [] => some acc
  | acc, c :: cs => if c.isDigit then digitsValGo (acc * 10 + (c.toNat - 48)) cs else Option.none

/-- Value of a nonempty all-digit character list. -/
def digitsVal : List Char → Option Nat
  | [] => Option.none
  | cs => digitsValGo 0 cs

/-- `int(s)` on a string: optional sign followed by digits, surrounding
whitespace allowed; anything else raises (`Option.none`). -/
def pyIntOfStr (s : String) : Option Int :=
  match trimChars s.toList with
  | '+' :: rest => (digitsVal rest).map Int.ofNat
  | '-' :: rest => (digitsVal rest).map (fun n => -(Int.ofNat n))
  | cs => (digitsVal cs).map Int.ofNat

/-- Split a character list at the first `'.'`, if any. -/
def splitDot : List Char → List Char × Option (List Char)
  | [] => ([], Option.none)
  | '.' :: rest => ([], some rest)
  | c :: rest =>
    let p := splitDot rest
    (c :: p.1, p.2)

/-- Unsigned decimal body of a float literal (`"12"`, `"12."`, `".5"`,
`"12.5"`; a second dot fails). -/
def floatBody (cs : List Char) : Option Rat :=
  match splitDot cs with
  | (a, Option.none) => (digitsVal a).map (fun n => (n : Rat))
  | (a, some b) =>
    if a.isEmpty && b.isEmpty then Option.none
    else if b.any (fun c => c = '.') then Option.none
    else
      match (if a.isEmpty then some 0 else digitsVal a),
            (if b.isEmpty then some 0 else digitsVal b) with
      | some ip, some fp => some ((ip : Rat) + (fp : Rat) / ((10 : Rat) ^ b.length))
      | _, _ => Option.none

/-- `float(s)` on a string: optional sign and a decimal body, surrounding
whitespace allowed. -/
def pyFloatOfStr (s : String) : Option Rat :=
  match trimChars s.toList with
  | '+' :: rest => floatBody rest
  | '-' :: rest => (floatBody rest).map Neg.neg
  | cs => floatBody cs

/-- `int(x)`: ints pass through, booleans become 0/1, floats truncate toward
zero, strings parse; everything else raises (`Option.none`). -/
def pyInt : PyVal → Option Int
  | .bool b => some (if b then 1 else 0)
  | .int n => some n
  | .float q => some (q.num.tdiv (q.den : Int))
  | .str s => pyIntOfStr s
  | _ => Option.none

/-- `float(x)`: floats and ints pass through, booleans become 0.0/1.0,
strings parse; everything else raises (`Option.none`). -/
def pyFloat : PyVal → Option Rat
  | .bool b => some (if b then 1 else 0)
  | .int n => some (n : Rat)
  | .float q => some q
  | .str s => pyFloatOfStr s
  | _ => Option.none

/-- Python float repr (floats only appear with small exact values here). -/
def floatRepr (q : Rat) : String :=
  if q.den = 1 then toString q.num ++ ".0" else toString q

mutual
/-- Python `repr(x)` (used by `str` on containers). -/
def pyRepr : PyVal → String
  | .none => "None"
  | .bool b => if b then "True" else "False"
  | .int n => toString n
  | .float q => floatRepr q
  | .str s => "\x27" ++ s ++ "\x27"
  | .list xs => "[" ++ String.intercalate ", " (pyReprElems xs) ++ "]"
  | .dict kvs => "\x7b" ++ String.intercalate ", " (pyReprPairs kvs) ++ "\x7d"
  | .obj _ => "SupplierBillDto"

/-- Reprs of list elements. -/
def pyReprElems : List PyVal → List String
  | [] => []
  | x :: xs => pyRepr x :: pyReprElems xs

/-- Reprs of dict entries. -/
def pyReprPairs : List (String × PyVal) → List String
  | [] => []
  | (k, v) :: xs => ("\x27" ++ k ++ "\x27: " ++ pyRepr v) :: pyReprPairs xs
end

/-- Python `str(x)`: identity on strings, `repr` otherwise. -/
def pyStr : PyVal → String
  | .str s => s
  | v => pyRepr v

/-- Iteration `for x in v`: lists yield elements, strings yield one-character
strings, dicts yield their keys; other values raise `TypeError`
(`Option.none`). -/
def pyIter : PyVal → Option (List PyVal)
  | .list xs => some xs
  | .str s => some (s.toList.map (fun c => .str (String.mk [c])))
  | .dict kvs => some (kvs.map (fun kv => PyVal.str kv.1))
  | _ => Option.none

/-- The idiom `int(x) if x else 0` under `try/except (ValueError, TypeError)`:
falsy raw values and failed parses both give 0. -/
def coerceInt (x : PyVal) : Int :=
  if pyTruthy x then (pyInt x).getD 0 else 0

/-- The idiom `float(x) if x else 0.0` under `try/except`: falsy raw values
and failed parses both give 0.0. -/
def coerceFloat (x : PyVal) : Rat :=
  if pyTruthy x then (pyFloat x).getD 0 else 0

/-- The idiom `str(x) if x else ""`: stringify truthy values, otherwise
the empty string. -/
def strTruthy (x : PyVal) : String :=
  if pyTruthy x then pyStr x else ""

/-- The idiom `str(x) if x is not None else ""` applied when the value is not
already a string: stringify non-null values, otherwise the empty string
(acting as the identity on strings). -/
def strNull : PyVal → String
  | .none => ""
  | v => pyStr v

/-- `self.default_prescription` (`validation_service.py` lines 9-20). -/
def default_prescription : List (String × PyVal) :=
  [("diagnosis", .str ""), ("history", .str ""), ("name", .str ""), ("age", .int 0),
   ("sex", .str ""), ("medication", .list []), ("test_suggested", .str ""),
   ("test_results", .str ""), ("medical_notes", .str ""), ("followUp", .none)]

/-- The `food` sub-dict of `self.default_medication`. -/
def default_food : List (String × PyVal) :=
  [("before_breakfast", .bool false), ("after_breakfast", .bool false),
   ("lunch", .bool false), ("dinner", .bool false)]

/-- The `frequency` sub-dict of `self.default_medication`. -/
def default_frequency : List (String × PyVal) :=
  [("od", .bool false), ("bid", .bool false), ("tid", .bool false), ("qid", .bool false),
   ("hs", .bool false), ("ac", .bool false), ("pc", .bool false), ("qam", .bool false),
   ("qpm", .bool false), ("bs", .bool false), ("q6h", .bool false), ("q8h", .bool false),
   ("q12h", .bool false), ("qod", .bool false), ("q1w", .bool false), ("q2w", .bool false),
   ("q3w", .bool false), ("q1m", .bool false)]

/-- `self.default_medication` (lines 22-54). -/
def default_medication : List (String × PyVal) :=
  [("medicine_name", .str ""), ("dosage", .str ""), ("days", .int 0), ("is_sos", .bool false),
   ("food", .dict default_food), ("frequency", .dict default_frequency), ("tapering", .none)]

/-- `self.default_tapering` (lines 56-60). -/
def default_tapering : List (String × PyVal) :=
  [("frequency", .str ""), ("days", .int 0), ("comments", .str "")]

/-- `self.default_supplier_bill` (lines 63-77); note its embedded supplier
dict has only nine fields — no `contact_person_phone`. -/
def default_supplier_bill : List (String × PyVal) :=
  [("supplier", .dict
      [("name", .str ""), ("gst_number", .str ""), ("address_line1", .str ""),
       ("address_line2", .str ""), ("city", .str ""), ("state", .str ""),
       ("contact_person_name", .str ""), ("phone", .str ""), ("email", .str "")]),
   ("bill_number", .str ""), ("medicines", .list [])]

/-- `self.default_supplier_medicine` (lines 80-90). -/
def default_supplier_medicine : List (String × PyVal) :=
  [("medicine_name", .str ""), ("dosage", .str ""), ("quantity", .int 0),
   ("mrp", .float 0), ("buying_price", .float 0), ("selling_price", .float 0),
   ("expiry_date", .str ""), ("batch_number", .str ""), ("manufacturer", .str "")]

/-- `self.default_supplier` (lines 92-105), ten string fields. -/
def default_supplier : List (String × PyVal) :=
  [("name", .str ""), ("gst_number", .str ""), ("address_line1", .str ""),
   ("address_line2", .str ""), ("city", .str ""), ("state", .str ""),
   ("phone", .str ""), ("email", .str ""), ("contact_person_name", .str ""),
   ("contact_person_phone", .str "")]

/-- One pass of `if not isinstance(d[k], str): d[k] = str(d[k]) if d[k] is
not None else ""` (the string loops at lines 130-132 and 268-270). -/
def fixStrNull (d : List (String × PyVal)) (k : String) : List (String × PyVal) :=
  match (dget d k).getD .none with
  | .str _ => d
  | .none => dset d k (.str "")
  | x => dset d k (.str (pyStr x))

/-- `d[k] = str(d[k]) if d[k] else ""` (unconditional truthy stringify). -/
def setStrTruthy (d : List (String × PyVal)) (k : String) : List (String × PyVal) :=
  dset d k (.str (strTruthy ((dget d k).getD .none)))

/-- `try: d[k] = int(d[k]) if d[k] else 0 except: d[k] = 0`. -/
def setIntField (d : List (String × PyVal)) (k : String) : List (String × PyVal) :=
  dset d k (.int (coerceInt ((dget d k).getD .none)))

/-- `d[k] = bool(d[k])`. -/
def setBoolTruthy (d : List (String × PyVal)) (k : String) : List (String × PyVal) :=
  dset d k (.bool (pyTruthy ((dget d k).getD .none)))

/-- `try: d[k] = float(d[k]) if d[k] else 0.0 except: d[k] = 0.0`. -/
def setFloatField (d : List (String × PyVal)) (k : String) : List (String × PyVal) :=
  dset d k (.float (coerceFloat ((dget d k).getD .none)))

/-- One iteration of the tapering loop (lines 159-164): merge the element
into the tapering defaults and force a non-string `frequency` to `""`; a
non-dict element makes `\x7b**defaults, **tap\x7d` raise, failing the whole
medication entry (`Option.none`). -/
def validate_tapering_elem (tp : PyVal) : Option PyVal :=
  match tp with
  | .dict tkvs =>
    let vt := dmerge default_tapering tkvs
    match (dget vt "frequency").getD .none with
    | .str _ => some (.dict vt)
    | _ => some (.dict (dset vt "frequency" (.str "")))
  | _ => Option.none

/-- Run a fallible step over every list element, failing the whole list on
the first failure (a raised exception aborts the surrounding loop). -/
def mapOpt (f : PyVal → Option PyVal) : List PyVal → Option (List PyVal)
  | [] => some []
  | x :: xs =>
    match f x, mapOpt f xs with
    | some y, some ys => some (y :: ys)
    | _, _ => Option.none

/-- `ValidationService._validate_medication` (lines 141-184).  The `try`
body raises — yielding a fresh copy of `default_medication` — when the
argument is not a dict, when a present `food`/`frequency` value is not a
dict (including `None`, since `med_data.get("food", \x7b\x7d)` only defaults
an *absent* key), or when a tapering list contains a non-dict element. -/
def validate_medication (med_data : PyVal) : List (String × PyVal) :=
  match med_data with
  | .dict kvs =>
    let v := dmerge default_medication kvs
    match (dget kvs "food").getD (.dict []) with
    | .dict fkvs =>
      let v := dset v "food" (.dict (dmerge default_food fkvs))
      match (dget kvs "frequency").getD (.dict []) with
      | .dict qkvs =>
        let v := dset v "frequency" (.dict (dmerge default_frequency qkvs))
        let tres : Option (List (String × PyVal)) :=
          match (dget kvs "tapering").getD .none with
          | .list (t :: ts) =>
            match mapOpt validate_tapering_elem (t :: ts) with
            | some vts => some (dset v "tapering" (.list vts))
            | Option.none => Option.none
          | _ => some (dset v "tapering" .none)
        match tres with
        | Option.none => default_medication
        | some v =>
          setBoolTruthy (setIntField (setStrTruthy (setStrTruthy v "medicine_name")
            "dosage") "days") "is_sos"
      | _ => default_medication
    | _ => default_medication
  | _ => default_medication

/-- `ValidationService.validate_prescription_data` (lines 107-139).  The
outer `try` raises — yielding a fresh copy of `default_prescription` — when
the argument is not a dict or when the `medication` value is not iterable;
each medication entry is guarded by `_validate_medication`'s own handler. -/
def validate_prescription_data (data : PyVal) : PyVal :=
  match data with
  | .dict kvs =>
    match pyIter ((dget kvs "medication").getD (.list [])) with
    | Option.none => .dict default_prescription
    | some ms =>
      let validated := dmerge default_prescription kvs
      let validated := dset validated "medication"
        (.list (ms.map (fun m => .dict (validate_medication m))))
      let validated := setIntField validated "age"
      let validated := fixStrNull validated "diagnosis"
      let validated := fixStrNull validated "history"
      let validated := fixStrNull validated "name"
      let validated := fixStrNull validated "sex"
      let validated := fixStrNull validated "test_suggested"
      let validated := fixStrNull validated "test_results"
      let validated := fixStrNull validated "medical_notes"
      .dict validated
  | _ => .dict default_prescription

/-- `ValidationService._validate_supplier` (lines 261-276): merge into the
ten-field supplier defaults, then stringify every non-string field (`""` for
`None`); a non-dict argument raises and yields the defaults. -/
def validate_supplier (supplier_data : PyVal) : List (String × PyVal) :=
  match supplier_data with
  | .dict kvs =>
    let v := dmerge default_supplier kvs
    let v := fixStrNull v "name"
    let v := fixStrNull v "gst_number"
    let v := fixStrNull v "address_line1"
    let v := fixStrNull v "address_line2"
    let v := fixStrNull v "city"
    let v := fixStrNull v "state"
    let v := fixStrNull v "phone"
    let v := fixStrNull v "email"
    let v := fixStrNull v "contact_person_name"
    fixStrNull v "contact_person_phone"
  | _ => default_supplier

/-- Lines 248-250: `if validated_med["selling_price"] == 0.0 and
validated_med["mrp"] > 0.0: validated_med["selling_price"] =
validated_med["mrp"]` (both fields hold floats at this point; the guard on
non-floats mirrors Python comparison semantics on the already-coerced
values). -/
def backfillSellingPrice (d : List (String × PyVal)) : List (String × PyVal) :=
  match (dget d "selling_price").getD .none, (dget d "mrp").getD .none with
  | .float spq, .float mq =>
    if spq = 0 ∧ 0 < mq then dset d "selling_price" (.float mq) else d
  | _, _ => d

/-- `ValidationService._validate_supplier_medicine` (lines 217-259): merge
into the line defaults, truthy-stringify the string fields, permissively
coerce `quantity`/`mrp`/`buying_price`/`selling_price`, and backfill
`selling_price` from a positive `mrp` when it coerced to 0.0; a non-dict
argument raises and yields the defaults. -/
def validate_supplier_medicine (med_data : PyVal) : List (String × PyVal) :=
  match med_data with
  | .dict kvs =>
    let v := dmerge default_supplier_medicine kvs
    let v := setStrTruthy v "medicine_name"
    let v := setStrTruthy v "dosage"
    let v := setStrTruthy v "expiry_date"
    let v := setIntField v "quantity"
    let v := setFloatField v "mrp"
    let v := setFloatField v "buying_price"
    let v := setFloatField v "selling_price"
    let v := backfillSellingPrice v
    let v := setStrTruthy v "batch_number"
    setStrTruthy v "manufacturer"
  | _ => default_supplier_medicine

/-- Pydantic required `str` field: present and a string, else ValidationError. -/
def reqStr (d : List (String × PyVal)) (k : String) : Option String :=
  match dget d k with
  | some (.str s) => some s
  | _ => Option.none

/-- Pydantic `Optional[str]` field: absent or `None` gives `None`, a string
gives the string, anything else is a ValidationError. -/
def optStr (d : List (String × PyVal)) (k : String) : Option (Option String) :=
  match dget d k with
  | Option.none => some Option.none
  | some .none => some Option.none
  | some (.str s) => some (some s)
  | some _ => Option.none

/-- Pydantic required `int` field. -/
def reqInt (d : List (String × PyVal)) (k : String) : Option Int :=
  match dget d k with
  | some (.int n) => some n
  | _ => Option.none

/-- Pydantic required `float` field (an int is accepted and widened). -/
def reqFloat (d : List (String × PyVal)) (k : String) : Option Rat :=
  match dget d k with
  | some (.float q) => some q
  | some (.int n) => some ((n : Rat))
  | _ => Option.none

/-- `SupplierDto(**d)`: extra keys are ignored, field types are validated. -/
def mkSupplierDto (d : List (String × PyVal)) : Option SupplierDto := do
  let name ← reqStr d "name"
  let gst_number ← optStr d "gst_number"
  let address_line1 ← optStr d "address_line1"
  let address_line2 ← optStr d "address_line2"
  let city ← optStr d "city"
  let state ← optStr d "state"
  let phone ← optStr d "phone"
  let email ← optStr d "email"
  let contact_person_name ← optStr d "contact_person_name"
  let contact_person_phone ← optStr d "contact_person_phone"
  pure ⟨name, gst_number, address_line1, address_line2, city, state, phone, email,
        contact_person_name, contact_person_phone⟩

/-- `BuyFromSupplierMedicineDto(**d)`. -/
def mkBuyFromSupplierMedicineDto (d : List (String × PyVal)) :
    Option BuyFromSupplierMedicineDto := do
  let medicine_name ← reqStr d "medicine_name"
  let dosage ← reqStr d "dosage"
  let quantity ← reqInt d "quantity"
  let mrp ← reqFloat d "mrp"
  let buying_price ← reqFloat d "buying_price"
  let selling_price ← reqFloat d "selling_price"
  let expiry_date ← reqStr d "expiry_date"
  let batch_number ← optStr d "batch_number"
  let manufacturer ← optStr d "manufacturer"
  pure ⟨medicine_name, dosage, quantity, mrp, buying_price, selling_price, expiry_date,
        batch_number, manufacturer⟩

/-- Turn every element of a medicines list into a DTO, failing on the first
element whose construction raises. -/
def mkMedicines : List PyVal → Option (List BuyFromSupplierMedicineDto)
  | [] => some []
  | .dict md :: xs =>
    match mkBuyFromSupplierMedicineDto md, mkMedicines xs with
    | some dto, some dtos => some (dto :: dtos)
    | _, _ => Option.none
  | _ :: _ => Option.none

/-- The all-defaults DTO returned by `create_supplier_bill_dto`'s exception
handler (lines 326-333): `SupplierDto(name="")` leaves all optional fields
`None`. -/
def fallbackBillDto : SupplierBillDto :=
  ⟨⟨"", Option.none, Option.none, Option.none, Option.none, Option.none, Option.none,
    Option.none, Option.none, Option.none⟩, "", []⟩

/-- `ValidationService.create_supplier_bill_dto` (lines 314-333): build the
pydantic DTOs from the validated dict, falling back to the default DTO if any
construction raises (missing key, non-mapping supplier, ill-typed field). -/
def create_supplier_bill_dto (bill_data : List (String × PyVal)) : SupplierBillDto :=
  let attempt : Option SupplierBillDto := do
    let supplier ←
      match dget bill_data "supplier" with
      | some (.dict s) => mkSupplierDto s
      | _ => Option.none
    let medicines ←
      match dget bill_data "medicines" with
      | some (.list ms) => mkMedicines ms
      | _ => Option.none
    let bill_number ← reqStr bill_data "bill_number"
    pure ⟨supplier, bill_number, medicines⟩
  match attempt with
  | some dto => dto
  | Option.none => fallbackBillDto

/-- `ValidationService.validate_supplier_bill_data` (lines 186-215).  The
outer `try` raises — falling back to the DTO built from
`default_supplier_bill` — when the argument is not a dict or the `medicines`
value is not iterable; the supplier and each medicine line are guarded by
their own handlers. -/
def validate_supplier_bill_data (data : PyVal) : SupplierBillDto :=
  match data with
  | .dict kvs =>
    match pyIter ((dget kvs "medicines").getD (.list [])) with
    | Option.none => create_supplier_bill_dto default_supplier_bill
    | some ms =>
      let validated := dmerge default_supplier_bill kvs
      let validated := dset validated "supplier"
        (.dict (validate_supplier ((dget kvs "supplier").getD (.dict []))))
      let validated := dset validated "medicines"
        (.list (ms.map (fun m => .dict (validate_supplier_medicine m))))
      let validated := setStrTruthy validated "bill_number"
      create_supplier_bill_dto validated
  | _ => create_supplier_bill_dto default_supplier_bill

/-- `b` has the keys of `a` (in order, with the same multiplicity) followed by
keys foreign to `a`: the shape of every dict the normalizers build by merging
raw input into a default dict and updating fields in place. -/
def Aligned (a b : List (String × PyVal)) : Prop :=
  ∃ b₁ b₂, b = b₁ ++ b₂ ∧ keys b₁ = keys a ∧ ∀ k ∈ keys b₂, dget a k = Option.none

/-- Shape of every dict `_validate_medication` returns: aligned with the
medication defaults, `food`/`frequency` merged sub-dicts (fixed points of
re-merging), `tapering` either `None` or a nonempty list that tapering
normalization maps to itself, string `medicine_name`/`dosage`, int `days`,
bool `is_sos`. -/
def MedNormal (V : List (String × PyVal)) : Prop :=
  Aligned default_medication V ∧
  (∃ f, dget V "food" = some (.dict f) ∧ dmerge default_food f = f) ∧
  (∃ q, dget V "frequency" = some (.dict q) ∧ dmerge default_frequency q = q) ∧
  (dget V "tapering" = some PyVal.none ∨
    ∃ t ts, dget V "tapering" = some (.list (t :: ts)) ∧
      mapOpt validate_tapering_elem (t :: ts) = some (t :: ts)) ∧
  (∃ s, dget V "medicine_name" = some (.str s)) ∧
  (∃ s, dget V "dosage" = some (.str s)) ∧
  (∃ n, dget V "days" = some (.int n)) ∧
  (∃ b, dget V "is_sos" = some (.bool b))

/-- Shape of every dict `validate_prescription_data` returns: aligned with the
prescription defaults, `medication` a list of normalized entries, int `age`,
and the seven coerced string fields strings. -/
def PresNormal (O : List (String × PyVal)) : Prop :=
  Aligned default_prescription O ∧
  (∃ ms : List PyVal, dget O "medication" =
    some (.list (ms.map (fun m => PyVal.dict (validate_medication m))))) ∧
  (∃ n, dget O "age" = some (.int n)) ∧
  (∃ s, dget O "diagnosis" = some (.str s)) ∧
  (∃ s, dget O "history" = some (.str s)) ∧
  (∃ s, dget O "name" = some (.str s)) ∧
  (∃ s, dget O "sex" = some (.str s)) ∧
  (∃ s, dget O "test_suggested" = some (.str s)) ∧
  (∃ s, dget O "test_results" = some (.str s)) ∧
  (∃ s, dget O "medical_notes" = some (.str s))

/-- The `medication` value of the raw input is one Python can iterate (list,
string, or dict); when it is not, the outer `try` of
`validate_prescription_data` catches a `TypeError` and returns the defaults. -/
def medicationIterable (kvs : List (String × PyVal)) : Bool :=
  (pyIter ((dget kvs "medication").getD (.list []))).isSome

/-- The seven top-level fields run through the `isinstance`/`str` loop at
lines 130-132. -/
def presStringFields : List String :=
  ["diagnosis", "history", "name", "sex", "test_suggested", "test_results", "medical_notes"]

/-- The ten supplier fields stringified by `_validate_supplier`. -/
def supplierFields : List String :=
  ["name", "gst_number", "address_line1", "address_line2", "city", "state",
   "phone", "email", "contact_person_name", "contact_person_phone"]

/-- The raw `tapering` value is not a nonempty list, so lines 156-167 set the
result tapering to `None`. -/
def taperingAbsent : PyVal → Bool
  | .list (_ :: _) => false
  | _ => true

/-- The tapering loop does not raise: either the raw value is not a nonempty
list, or every element of the list is a dict. -/
def taperingOk (kvs : List (String × PyVal)) : Bool :=
  match (dget kvs "tapering").getD .none with
  | .list (t :: ts) => (mapOpt validate_tapering_elem (t :: ts)).isSome
  | _ => true

/-! ### Association-list lemmas -/

theorem dget_cons (k' : String) (v : PyVal) (rest : List (String × PyVal)) (k : String) :
    dget ((k', v) :: rest) k = if k' = k then some v else dget rest k := rfl

theorem dget_append_left {d₁ : List (String × PyVal)} {k : String}
    (h : (dget d₁ k).isSome) (d₂ : List (String × PyVal)) :
    dget (d₁ ++ d₂) k = dget d₁ k := by
  induction d₁ with
  | nil => simp [dget] at h
  | cons p rest ih =>
    obtain ⟨k', v⟩ := p
    by_cases hk : k' = k
    · simp [dget, hk]
    · rw [dget_cons, if_neg hk] at h
      rw [List.cons_append, dget_cons, if_neg hk, dget_cons, if_neg hk]
      exact ih h

theorem dget_append_right {d₁ : List (String × PyVal)} {k : String}
    (h : dget d₁ k = Option.none) (d₂ : List (String × PyVal)) :
    dget (d₁ ++ d₂) k = dget d₂ k := by
  induction d₁ with
  | nil => simp
  | cons p rest ih =>
    obtain ⟨k', v⟩ := p
    by_cases hk : k' = k
    · rw [dget_cons, if_pos hk] at h
      exact absurd h (by simp)
    · rw [dget_cons, if_neg hk] at h
      rw [List.cons_append, dget_cons, if_neg hk]
      exact ih h

theorem isSome_dget_of_mem_keys {d : List (String × PyVal)} {k : String}
    (h : k ∈ keys d) : (dget d k).isSome := by
  induction d with
  | nil => simp [keys] at h
  | cons p rest ih =>
    obtain ⟨k', v⟩ := p
    by_cases hk : k' = k
    · simp [dget, hk]
    · simp only [keys, List.map_cons, List.mem_cons] at h
      rcases h with h | h
    
      · exact absurd h.symm hk
      · rw [dget_cons, if_neg hk]
        exact ih h

theorem dget_eq_none_of_not_mem_keys {d : List (String × PyVal)} {k : String}
    (h : k ∉ keys d) : dget d k = Option.none := by
  induction d with
  | nil => rfl
  | cons p rest ih =>
    obtain ⟨k', v⟩ := p
    simp only [keys, List.map_cons, List.mem_cons, not_or] at h
    have hk : k' ≠ k := fun hh => h.1 hh.symm
    rw [dget_cons, if_neg hk]
    exact ih (by simpa [keys] using h.2)

theorem mem_keys_of_isSome_dget {d : List (String × PyVal)} {k : String}
    (h : (dget d k).isSome) : k ∈ keys d := by
  by_contra hmem
  rw [dget_eq_none_of_not_mem_keys hmem] at h
  simp at h

theorem dget_of_mem_of_nodup {d : List (String × PyVal)} {k : String} {v : PyVal}
    (hn : (keys d).Nodup) (h : (k, v) ∈ d) : dget d k = some v := by
  induction d with
  | nil => simp at h
  | cons p rest ih =>
    obtain ⟨k', v'⟩ := p
    simp only [keys, List.map_cons, List.nodup_cons] at hn
    rcases List.mem_cons.mp h with h | h
    · injection h with h1 h2
      subst h1
      subst h2
      rw [dget_cons, if_pos rfl]
    · have hk : k' ≠ k := by
        rintro rfl
        exact hn.1 (by simpa [keys] using List.mem_map_of_mem Prod.fst h)
      rw [dget_cons, if_neg hk]
      exact ih hn.2 h

theorem dget_map_override (a b : List (String × PyVal)) (k : String) :
    dget (a.map (fun kv => (kv.1, (dget b kv.1).getD kv.2))) k
      = (dget a k).map (fun v => (dget b k).getD v) := by
  induction a with
  | nil => rfl
  | cons p rest ih =>
    obtain ⟨k', v⟩ := p
    simp only [List.map_cons]
    by_cases hk : k' = k
    · subst hk
      rw [dget_cons, if_pos rfl, dget_cons, if_pos rfl]
      rfl
    · rw [dget_cons, if_neg hk, dget_cons, if_neg hk]
      exact ih

theorem dget_filter_of_isSome {a b : List (String × PyVal)} {k : String}
    (h : (dget a k).isSome) :
    dget (b.filter (fun kv => (dget a kv.1).isNone)) k = Option.none := by
  induction b with
  | nil => rfl
  | cons p rest ih =>
    obtain ⟨k', v⟩ := p
    rw [List.filter_cons]
    cases hdec : (dget a (k', v).1).isNone with
    | false =>
      rw [if_neg Bool.false_ne_true]
      exact ih
    | true =>
      rw [if_pos rfl]
      have hdec' : dget a k' = Option.none := by simpa using hdec
      have hk : k' ≠ k := by
        rintro rfl
        rw [hdec'] at h
        simp at h
      rw [dget_cons, if_neg hk]
      exact ih

theorem dget_filter_of_none {a b : List (String × PyVal)} {k : String}
    (h : dget a k = Option.none) :
    dget (b.filter (fun kv => (dget a kv.1).isNone)) k = dget b k := by
  induction b with
  | nil => rfl
  | cons p rest ih =>
    obtain ⟨k', v⟩ := p
    rw [List.filter_cons]
    by_cases hk : k' = k
    · subst hk
      rw [if_pos (by simp [h]), dget_cons, if_pos rfl, dget_cons, if_pos rfl]
    · cases hdec : (dget a (k', v).1).isNone with
      | false =>
        rw [if_neg Bool.false_ne_true, dget_cons, if_neg hk]
        exact ih
      | true =>
        rw [if_pos rfl, dget_cons, if_neg hk, dget_cons, if_neg hk]
        exact ih

theorem dget_dmerge_left {a : List (String × PyVal)} {k : String} {v : PyVal}
    (h : dget a k = some v) (b : List (String × PyVal)) :
    dget (dmerge a b) k = some ((dget b k).getD v) := by
  unfold dmerge
  rw [dget_append_left (by rw [dget_map_override, h]; simp)]
  rw [dget_map_override, h]
  rfl

theorem dget_dmerge_right {a : List (String × PyVal)} {k : String}
    (h : dget a k = Option.none) (b : List (String × PyVal)) :
    dget (dmerge a b) k = dget b k := by
  unfold dmerge
  rw [dget_append_right (by rw [dget_map_override, h]; rfl)]
  exact dget_filter_of_none h

theorem dget_map_replace_same {d : List (String × PyVal)} {k : String}
    (h : (dget d k).isSome) (v : PyVal) :
    dget (d.map (fun kv => if kv.1 = k then (k, v) else kv)) k = some v := by
  induction d with
  | nil => simp [dget] at h
  | cons p rest ih =>
    obtain ⟨k', v'⟩ := p
    simp only [List.map_cons]
    by_cases hk : k' = k
    · subst hk
      rw [if_pos rfl, dget_cons, if_pos rfl]
    · rw [dget_cons, if_neg hk] at h
      rw [if_neg hk, dget_cons, if_neg hk]
      exact ih h

theorem dget_map_replace_other {k' k : String} (h : k' ≠ k)
    (d : List (String × PyVal)) (v : PyVal) :
    dget (d.map (fun kv => if kv.1 = k then (k, v) else kv)) k' = dget d k' := by
  induction d with
  | nil => rfl
  | cons p rest ih =>
    obtain ⟨k₀, v₀⟩ := p
    simp only [List.map_cons]
    by_cases hk : k₀ = k
    · subst hk
      rw [if_pos rfl, dget_cons, if_neg (fun hh => h hh.symm), dget_cons,
        if_neg (fun hh => h hh.symm)]
      exact ih
    · rw [if_neg hk, dget_cons, dget_cons]
      by_cases hk0 : k₀ = k'
      · rw [if_pos hk0, if_pos hk0]
      · rw [if_neg hk0, if_neg hk0]
        exact ih

theorem dget_dset_same (d : List (String × PyVal)) (k : String) (v : PyVal) :
    dget (dset d k v) k = some v := by
  unfold dset
  split
  · exact dget_map_replace_same (by assumption) v
  · rw [dget_append_right (by rename_i h; simpa using h)]
    simp [dget]

theorem dget_dset_other {k' k : String} (h : k' ≠ k) (d : List (String × PyVal)) (v : PyVal) :
    dget (dset d k v) k' = dget d k' := by
  unfold dset
  split
  · exact dget_map_replace_other h d v
  · rcases hd : dget d k' with _ | w
    · rw [dget_append_right hd, dget_cons, if_neg (fun hh => h hh.symm)]
      rfl
    · rw [dget_append_left (by simp [hd]) _, hd]

theorem keys_map_replace (d : List (String × PyVal)) (k : String) (v : PyVal) :
    keys (d.map (fun kv => if kv.1 = k then (k, v) else kv)) = keys d := by
  induction d with
  | nil => rfl
  | cons p rest ih =>
    obtain ⟨k₀, v₀⟩ := p
    simp only [List.map_cons, keys] at ih ⊢
    by_cases hk : k₀ = k
    · subst hk
      rw [if_pos rfl]
      simpa using ih
    · rw [if_neg hk]
      simpa using ih

theorem keys_dset {d : List (String × PyVal)} {k : String}
    (h : (dget d k).isSome) (v : PyVal) : keys (dset d k v) = keys d := by
  unfold dset
  rw [if_pos h]
  exact keys_map_replace d k v

theorem keys_dmerge (a b : List (String × PyVal)) :
    keys (dmerge a b) = keys a ++ keys (b.filter (fun kv => (dget a kv.1).isNone)) := by
  unfold dmerge keys
  rw [List.map_append, List.map_map]
  rfl

theorem dget_eq_none_of_mem_filter_keys {a b : List (String × PyVal)} {k : String}
    (h : k ∈ keys (b.filter (fun kv => (dget a kv.1).isNone))) :
    dget a k = Option.none := by
  unfold keys at h
  rcases List.mem_map.mp h with ⟨p, hp, rfl⟩
  have := List.of_mem_filter hp
  simpa using this

theorem map_replace_eq_self {d : List (String × PyVal)} {k : String} {v : PyVal}
    (h : ∀ p ∈ d, p.1 = k → p.2 = v) :
    d.map (fun kv => if kv.1 = k then (k, v) else kv) = d := by
  induction d with
  | nil => rfl
  | cons p rest ih =>
    obtain ⟨k₀, v₀⟩ := p
    simp only [List.map_cons]
    by_cases hk : k₀ = k
    · subst hk
      have hv : v₀ = v := h (k₀, v₀) (List.mem_cons_self ..) rfl
      rw [if_pos rfl, hv, ih (fun p hp hpk => h p (List.mem_cons_of_mem _ hp) hpk)]
    · rw [if_neg hk, ih (fun p hp hpk => h p (List.mem_cons_of_mem _ hp) hpk)]

theorem aligned_dmerge (a b : List (String × PyVal)) : Aligned a (dmerge a b) := by
  refine ⟨a.map (fun kv => (kv.1, (dget b kv.1).getD kv.2)),
    b.filter (fun kv => (dget a kv.1).isNone), ?_, ?_, ?_⟩
  · rfl
  · unfold keys
    rw [List.map_map]
    rfl
  · intro k hk
    exact dget_eq_none_of_mem_filter_keys hk

theorem aligned_dset {a b : List (String × PyVal)} {k : String}
    (h : Aligned a b) (hk : k ∈ keys a) (v : PyVal) : Aligned a (dset b k v) := by
  obtain ⟨b₁, b₂, rfl, hkeys, hforeign⟩ := h
  have hb₁ : (dget b₁ k).isSome := isSome_dget_of_mem_keys (hkeys ▸ hk)
  have hb : (dget (b₁ ++ b₂) k).isSome := by rw [dget_append_left hb₁]; exact hb₁
  refine ⟨b₁.map (fun kv => if kv.1 = k then (k, v) else kv), b₂, ?_, ?_, hforeign⟩
  · unfold dset
    rw [if_pos hb, List.map_append]
    congr 1
    apply map_replace_eq_self
    intro p hp hpk
    exfalso
    have hnone : dget a k = Option.none := hforeign k (hpk ▸ List.mem_map_of_mem Prod.fst hp)
    have hsome := isSome_dget_of_mem_keys hk
    rw [hnone] at hsome
    simp at hsome
  · rw [keys_map_replace]
    exact hkeys

theorem map_override_of_agree {a : List (String × PyVal)} (b : List (String × PyVal)) :
    ∀ b₁ : List (String × PyVal), (keys a).Nodup → keys b₁ = keys a →
      (∀ k ∈ keys a, dget b k = dget b₁ k) →
      a.map (fun kv => (kv.1, (dget b kv.1).getD kv.2)) = b₁ := by
  induction a with
  | nil =>
    intro b₁ _ hkeys _
    simp only [keys, List.map_nil] at hkeys
    simp [List.map_eq_nil_iff.mp hkeys]
  | cons p rest ih =>
    intro b₁ hn hkeys hag
    obtain ⟨k, v⟩ := p
    match b₁ with
    | [] => simp [keys] at hkeys
    | (k₁, w) :: b₁' =>
      simp only [keys, List.map_cons, List.cons.injEq] at hkeys
      obtain ⟨rfl, hkeys'⟩ := hkeys
      simp only [keys, List.map_cons, List.nodup_cons] at hn
      have hhead : dget b k₁ = some w := by
        rw [hag k₁ (by simp [keys]), dget_cons, if_pos rfl]
      have hagree' : ∀ k' ∈ keys rest, dget b k' = dget b₁' k' := by
        intro k' hk'
        have hne : k₁ ≠ k' := fun hh => hn.1 (hh ▸ hk')
        rw [hag k' (by simp only [keys, List.map_cons, List.mem_cons]; right; exact hk'),
          dget_cons, if_neg hne]
      simp only [List.map_cons, hhead, Option.getD_some]
      rw [ih b₁' hn.2 hkeys' hagree']

theorem filter_isNone_eq_nil {a b₁ : List (String × PyVal)}
    (hkeys : keys b₁ = keys a) :
    b₁.filter (fun kv => (dget a kv.1).isNone) = [] := by
  rw [List.filter_eq_nil_iff]
  intro p hp
  have : p.1 ∈ keys a := hkeys ▸ List.mem_map_of_mem Prod.fst hp
  have := isSome_dget_of_mem_keys this
  simp only [Option.isNone_iff_eq_none]
  rcases Option.isSome_iff_exists.mp this with ⟨w, hw⟩
  simp [hw]

theorem filter_isNone_eq_self {a b₂ : List (String × PyVal)}
    (hforeign : ∀ k ∈ keys b₂, dget a k = Option.none) :
    b₂.filter (fun kv => (dget a kv.1).isNone) = b₂ := by
  rw [List.filter_eq_self]
  intro p hp
  have := hforeign p.1 (List.mem_map_of_mem Prod.fst hp)
  simp [this]

/-- Merging the defaults into a dict that is already aligned with them is the
identity: the second `\x7b**defaults, **d\x7d` of a re-normalization changes
nothing. -/
theorem dmerge_absorb {a b : List (String × PyVal)}
    (hn : (keys a).Nodup) (h : Aligned a b) : dmerge a b = b := by
  obtain ⟨b₁, b₂, rfl, hkeys, hforeign⟩ := h
  unfold dmerge
  have hag : ∀ k ∈ keys a, dget (b₁ ++ b₂) k = dget b₁ k := by
    intro k hk
    exact dget_append_left (isSome_dget_of_mem_keys (hkeys ▸ hk)) b₂
  rw [map_override_of_agree (b₁ ++ b₂) b₁ hn hkeys hag]
  rw [List.filter_append, filter_isNone_eq_nil hkeys, filter_isNone_eq_self hforeign]
  simp

theorem dmerge_idem {a c : List (String × PyVal)} (hn : (keys a).Nodup) :
    dmerge a (dmerge a c) = dmerge a c :=
  dmerge_absorb hn (aligned_dmerge a c)

/-- Writing back the value a key already holds is the identity, provided the
dict is aligned with nodup defaults (so the key occurs once). -/
theorem dset_absorb {a b : List (String × PyVal)} {k : String} {v : PyVal}
    (hn : (keys a).Nodup) (h : Aligned a b) (hk : k ∈ keys a)
    (hv : dget b k = some v) : dset b k v = b := by
  obtain ⟨b₁, b₂, rfl, hkeys, hforeign⟩ := h
  have hb : (dget (b₁ ++ b₂) k).isSome := by simp [hv]
  unfold dset
  rw [if_pos hb, List.map_append]
  have hk₂ : ∀ p ∈ b₂, p.1 ≠ k := by
    intro p hp hpk
    have hnone := hforeign k (hpk ▸ List.mem_map_of_mem Prod.fst hp)
    have hsome := isSome_dget_of_mem_keys hk
    rw [hnone] at hsome
    simp at hsome
  have h₂ : b₂.map (fun kv => if kv.1 = k then (k, v) else kv) = b₂ :=
    map_replace_eq_self (fun p hp hpk => absurd hpk (hk₂ p hp))
  have hb₁ : (dget b₁ k).isSome := isSome_dget_of_mem_keys (hkeys ▸ hk)
  have hvb₁ : dget b₁ k = some v := by
    rw [dget_append_left hb₁] at hv
    exact hv
  have h₁ : b₁.map (fun kv => if kv.1 = k then (k, v) else kv) = b₁ := by
    apply map_replace_eq_self
    intro p hp hpk
    have hmem : (k, p.2) ∈ b₁ := by
      have : p = (k, p.2) := by
        obtain ⟨p1, p2⟩ := p
        simpa using hpk
      exact this ▸ hp
    have := dget_of_mem_of_nodup (hkeys ▸ hn) hmem
    rw [hvb₁] at this
    simpa using this.symm
  rw [h₁, h₂]

/-! ### Field-setter characterizations -/

theorem dget_fixStrNull_same (d : List (String × PyVal)) (k : String) :
    dget (fixStrNull d k) k = some (.str (strNull ((dget d k).getD .none))) := by
  unfold fixStrNull
  rcases hdg : dget d k with _ | v
  · simp only [hdg, Option.getD_none]
    rw [dget_dset_same]
    rfl
  · cases v <;> simp only [hdg, Option.getD_some] <;>
      first
        | (rw [dget_dset_same]; rfl)
        | rfl

theorem dget_fixStrNull_other {k' k : String} (h : k' ≠ k)
    (d : List (String × PyVal)) :
    dget (fixStrNull d k) k' = dget d k' := by
  unfold fixStrNull
  split
  · rfl
  · exact dget_dset_other h d _
  · exact dget_dset_other h d _

theorem aligned_fixStrNull {a d : List (String × PyVal)} {k : String}
    (hal : Aligned a d) (hk : k ∈ keys a) : Aligned a (fixStrNull d k) := by
  unfold fixStrNull
  split
  · exact hal
  · exact aligned_dset hal hk _
  · exact aligned_dset hal hk _

theorem fixStrNull_noop {d : List (String × PyVal)} {k : String} {s : String}
    (h : dget d k = some (.str s)) : fixStrNull d k = d := by
  unfold fixStrNull
  rw [h]
  rfl

theorem dget_setStrTruthy_same (d : List (String × PyVal)) (k : String) :
    dget (setStrTruthy d k) k = some (.str (strTruthy ((dget d k).getD .none))) :=
  dget_dset_same ..

theorem dget_setStrTruthy_other {k' k : String} (h : k' ≠ k)
    (d : List (String × PyVal)) :
    dget (setStrTruthy d k) k' = dget d k' :=
  dget_dset_other h ..

theorem aligned_setStrTruthy {a d : List (String × PyVal)} {k : String}
    (hal : Aligned a d) (hk : k ∈ keys a) : Aligned a (setStrTruthy d k) :=
  aligned_dset hal hk _

theorem dget_setIntField_same (d : List (String × PyVal)) (k : String) :
    dget (setIntField d k) k = some (.int (coerceInt ((dget d k).getD .none))) :=
  dget_dset_same ..

theorem dget_setIntField_other {k' k : String} (h : k' ≠ k)
    (d : List (String × PyVal)) :
    dget (setIntField d k) k' = dget d k' :=
  dget_dset_other h ..

theorem aligned_setIntField {a d : List (String × PyVal)} {k : String}
    (hal : Aligned a d) (hk : k ∈ keys a) : Aligned a (setIntField d k) :=
  aligned_dset hal hk _

theorem dget_setFloatField_same (d : List (String × PyVal)) (k : String) :
    dget (setFloatField d k) k = some (.float (coerceFloat ((dget d k).getD .none))) :=
  dget_dset_same ..

theorem dget_setFloatField_other {k' k : String} (h : k' ≠ k)
    (d : List (String × PyVal)) :
    dget (setFloatField d k) k' = dget d k' :=
  dget_dset_other h ..

theorem coerceInt_int (n : Int) : coerceInt (.int n) = n := by
  by_cases hn : n = 0
  · simp [coerceInt, pyTruthy, hn]
  · simp [coerceInt, pyTruthy, pyInt, hn]

theorem coerceFloat_float (q : Rat) : coerceFloat (.float q) = q := by
  by_cases hq : q = 0
  · simp [coerceFloat, pyTruthy, hq]
  · simp [coerceFloat, pyTruthy, pyFloat, hq]

theorem strTruthy_str (s : String) : strTruthy (.str s) = s := by
  unfold strTruthy
  cases hs : pyTruthy (.str s) with
  | true => rfl
  | false =>
    rw [if_neg Bool.false_ne_true]
    have : s.isEmpty = true := by
      have := hs
      unfold pyTruthy at this
      simpa using this
    exact ((String.isEmpty_iff s).mp this).symm

theorem pyTruthy_bool (b : Bool) : pyTruthy (.bool b) = b := rfl

theorem dget_setBoolTruthy_same (d : List (String × PyVal)) (k : String) :
    dget (setBoolTruthy d k) k = some (.bool (pyTruthy ((dget d k).getD .none))) :=
  dget_dset_same ..

theorem dget_setBoolTruthy_other {k' k : String} (h : k' ≠ k)
    (d : List (String × PyVal)) :
    dget (setBoolTruthy d k) k' = dget d k' :=
  dget_dset_other h ..

theorem aligned_setBoolTruthy {a d : List (String × PyVal)} {k : String}
    (hal : Aligned a d) (hk : k ∈ keys a) : Aligned a (setBoolTruthy d k) :=
  aligned_dset hal hk _

/-! ### Tapering idempotence -/

theorem validate_tapering_elem_idem {tp p : PyVal}
    (h : validate_tapering_elem tp = some p) :
    validate_tapering_elem p = some p := by
  cases tp with
  | dict tkvs =>
    simp only [validate_tapering_elem] at h
    split at h
    · rename_i s hfreq
      injection h with h'
      subst h'
      simp only [validate_tapering_elem]
      rw [dmerge_idem (by decide), hfreq]
    · injection h with h'
      subst h'
      simp only [validate_tapering_elem]
      have hal : Aligned default_tapering
          (dset (dmerge default_tapering tkvs) "frequency" (.str "")) :=
        aligned_dset (aligned_dmerge ..) (by decide) _
      rw [dmerge_absorb (by decide) hal, dget_dset_same]
      rfl
  | none => simp [validate_tapering_elem] at h
  | bool b => simp [validate_tapering_elem] at h
  | int n => simp [validate_tapering_elem] at h
  | float q => simp [validate_tapering_elem] at h
  | str s => simp [validate_tapering_elem] at h
  | list xs => simp [validate_tapering_elem] at h
  | obj o => simp [validate_tapering_elem] at h

theorem mapOpt_idem {f : PyVal → Option PyVal}
    (hf : ∀ a b, f a = some b → f b = some b) :
    ∀ {l l' : List PyVal}, mapOpt f l = some l' → mapOpt f l' = some l' := by
  intro l
  induction l with
  | nil =>
    intro l' h
    simp only [mapOpt] at h
    injection h with h'
    subst h'
    rfl
  | cons x xs ih =>
    intro l' h
    simp only [mapOpt] at h
    rcases hfx : f x with _ | y
    · rw [hfx] at h
      simp at h
    · rcases hm : mapOpt f xs with _ | ys
      · rw [hfx, hm] at h
        simp at h
      · rw [hfx, hm] at h
        injection h with h'
        subst h'
        simp only [mapOpt]
        rw [hf x y hfx, ih hm]

theorem mapOpt_cons_shape {f : PyVal → Option PyVal} {x : PyVal} {xs l' : List PyVal}
    (h : mapOpt f (x :: xs) = some l') : ∃ y ys, l' = y :: ys := by
  simp only [mapOpt] at h
  rcases hfx : f x with _ | y
  · rw [hfx] at h
    simp at h
  · rcases hm : mapOpt f xs with _ | ys
    · rw [hfx, hm] at h
      simp at h
    · rw [hfx, hm] at h
      injection h with h'
      exact ⟨y, ys, h'.symm⟩

/-! ### The medication normal form -/

theorem medNormal_default : MedNormal default_medication :=
  ⟨⟨default_medication, [], by simp, rfl, by simp [keys]⟩,
    ⟨default_food, rfl, rfl⟩, ⟨default_frequency, rfl, rfl⟩, Or.inl rfl,
    ⟨"", rfl⟩, ⟨"", rfl⟩, ⟨0, rfl⟩, ⟨false, rfl⟩⟩

theorem medNormal_finish {V : List (String × PyVal)}
    (hal : Aligned default_medication V)
    (hfood : ∃ f, dget V "food" = some (.dict f) ∧ dmerge default_food f = f)
    (hfreq : ∃ q, dget V "frequency" = some (.dict q) ∧ dmerge default_frequency q = q)
    (htap : dget V "tapering" = some PyVal.none ∨ ∃ t ts,
      dget V "tapering" = some (.list (t :: ts)) ∧
      mapOpt validate_tapering_elem (t :: ts) = some (t :: ts)) :
    MedNormal (setBoolTruthy (setIntField (setStrTruthy (setStrTruthy V "medicine_name")
      "dosage") "days") "is_sos") := by
  have hpass : ∀ k', k' ≠ "medicine_name" → k' ≠ "dosage" → k' ≠ "days" → k' ≠ "is_sos" →
      dget (setBoolTruthy (setIntField (setStrTruthy (setStrTruthy V "medicine_name")
        "dosage") "days") "is_sos") k' = dget V k' := by
    intro k' h1 h2 h3 h4
    rw [dget_setBoolTruthy_other h4, dget_setIntField_other h3,
      dget_setStrTruthy_other h2, dget_setStrTruthy_other h1]
  refine ⟨?_, ?_, ?_, ?_, ?_, ?_, ?_, ?_⟩
  · exact aligned_setBoolTruthy (aligned_setIntField (aligned_setStrTruthy
      (aligned_setStrTruthy hal (by decide)) (by decide)) (by decide)) (by decide)
  · obtain ⟨f, hf, hfm⟩ := hfood
    refine ⟨f, ?_, hfm⟩
    rw [hpass "food" (by decide) (by decide) (by decide) (by decide)]
    exact hf
  · obtain ⟨q, hq, hqm⟩ := hfreq
    refine ⟨q, ?_, hqm⟩
    rw [hpass "frequency" (by decide) (by decide) (by decide) (by decide)]
    exact hq
  · rcases htap with h | ⟨t, ts, h, hmap⟩
    · refine Or.inl ?_
      rw [hpass "tapering" (by decide) (by decide) (by decide) (by decide)]
      exact h
    · refine Or.inr ⟨t, ts, ?_, hmap⟩
      rw [hpass "tapering" (by decide) (by decide) (by decide) (by decide)]
      exact h
  · refine ⟨strTruthy ((dget V "medicine_name").getD .none), ?_⟩
    rw [dget_setBoolTruthy_other (by decide), dget_setIntField_other (by decide),
      dget_setStrTruthy_other (by decide), dget_setStrTruthy_same]
  · refine ⟨strTruthy ((dget (setStrTruthy V "medicine_name") "dosage").getD .none), ?_⟩
    rw [dget_setBoolTruthy_other (by decide), dget_setIntField_other (by decide),
      dget_setStrTruthy_same]
  · refine ⟨coerceInt ((dget (setStrTruthy (setStrTruthy V "medicine_name") "dosage")
      "days").getD .none), ?_⟩
    rw [dget_setBoolTruthy_other (by decide), dget_setIntField_same]
  · exact ⟨_, dget_setBoolTruthy_same ..⟩

theorem validate_medication_fixpoint {V : List (String × PyVal)} (h : MedNormal V) :
    validate_medication (.dict V) = V := by
  obtain ⟨hal, ⟨f, hf, hfm⟩, ⟨q, hq, hqm⟩, htap, ⟨nm, hnm⟩, ⟨ds, hds⟩, ⟨dy, hdy⟩, ⟨so, hso⟩⟩ := h
  have hnodup : (keys default_medication).Nodup := by decide
  have habs : dmerge default_medication V = V := dmerge_absorb hnodup hal
  have e_name : setStrTruthy V "medicine_name" = V := by
    unfold setStrTruthy
    rw [hnm]
    simp only [Option.getD_some]
    rw [strTruthy_str]
    exact dset_absorb hnodup hal (by decide) hnm
  have e_dos : setStrTruthy V "dosage" = V := by
    unfold setStrTruthy
    rw [hds]
    simp only [Option.getD_some]
    rw [strTruthy_str]
    exact dset_absorb hnodup hal (by decide) hds
  have e_days : setIntField V "days" = V := by
    unfold setIntField
    rw [hdy]
    simp only [Option.getD_some]
    rw [coerceInt_int]
    exact dset_absorb hnodup hal (by decide) hdy
  have e_sos : setBoolTruthy V "is_sos" = V := by
    unfold setBoolTruthy
    rw [hso]
    simp only [Option.getD_some]
    rw [pyTruthy_bool]
    exact dset_absorb hnodup hal (by decide) hso
  have e_food : dset V "food" (.dict (dmerge default_food f)) = V := by
    rw [hfm]
    exact dset_absorb hnodup hal (by decide) hf
  have e_freq : dset V "frequency" (.dict (dmerge default_frequency q)) = V := by
    rw [hqm]
    exact dset_absorb hnodup hal (by decide) hq
  simp only [validate_medication]
  rw [hf]
  simp only [Option.getD_some]
  rw [hq]
  simp only [Option.getD_some]
  rcases htap with hta | ⟨t, ts, hta, hmap⟩
  · rw [hta]
    simp only [Option.getD_some]
    rw [habs, e_food, e_freq]
    have e_tap : dset V "tapering" PyVal.none = V :=
      dset_absorb hnodup hal (by decide) hta
    rw [e_tap, e_name, e_dos, e_days, e_sos]
  · rw [hta]
    simp only [Option.getD_some]
    rw [hmap]
    simp only []
    rw [habs, e_food, e_freq]
    have e_tap : dset V "tapering" (.list (t :: ts)) = V :=
      dset_absorb hnodup hal (by decide) hta
    rw [e_tap, e_name, e_dos, e_days, e_sos]

theorem validate_medication_normal (m : PyVal) : MedNormal (validate_medication m) := by
  cases m with
  | dict kvs =>
    simp only [validate_medication]
    split
    · rename_i fkvs hfeq
      split
      · rename_i qkvs hqeq
        split
        · exact medNormal_default
        · rename_i v heq
          split at heq
          · rename_i t ts hτ
            split at heq
            · rename_i vts hm
              injection heq with heq'
              subst heq'
              obtain ⟨y, ys, rfl⟩ := mapOpt_cons_shape hm
              refine medNormal_finish ?_ ?_ ?_ ?_
              · exact aligned_dset (aligned_dset (aligned_dset (aligned_dmerge ..)
                  (by decide) _) (by decide) _) (by decide) _
              · refine ⟨dmerge default_food fkvs, ?_, dmerge_idem (by decide)⟩
                rw [dget_dset_other (by decide), dget_dset_other (by decide), dget_dset_same]
              · refine ⟨dmerge default_frequency qkvs, ?_, dmerge_idem (by decide)⟩
                rw [dget_dset_other (by decide), dget_dset_same]
              · refine Or.inr ⟨y, ys, ?_, ?_⟩
                · rw [dget_dset_same]
                · exact mapOpt_idem (fun a b hab => validate_tapering_elem_idem hab) hm
            · simp at heq
          · rename_i hτ
            injection heq with heq'
            subst heq'
            refine medNormal_finish ?_ ?_ ?_ ?_
            · exact aligned_dset (aligned_dset (aligned_dset (aligned_dmerge ..)
                (by decide) _) (by decide) _) (by decide) _
            · refine ⟨dmerge default_food fkvs, ?_, dmerge_idem (by decide)⟩
              rw [dget_dset_other (by decide), dget_dset_other (by decide), dget_dset_same]
            · refine ⟨dmerge default_frequency qkvs, ?_, dmerge_idem (by decide)⟩
              rw [dget_dset_other (by decide), dget_dset_same]
            · exact Or.inl (dget_dset_same ..)
      · exact medNormal_default
    · exact medNormal_default
  | none => exact medNormal_default
  | bool b => exact medNormal_default
  | int n => exact medNormal_default
  | float q => exact medNormal_default
  | str s => exact medNormal_default
  | list xs => exact medNormal_default
  | obj o => exact medNormal_default

theorem validate_medication_idem (m : PyVal) :
    validate_medication (.dict (validate_medication m)) = validate_medication m :=
  validate_medication_fixpoint (validate_medication_normal m)

/-! ### The prescription normal form -/

theorem presNormal_default : PresNormal default_prescription :=
  ⟨⟨default_prescription, [], by simp, rfl, by simp [keys]⟩,
    ⟨[], rfl⟩, ⟨0, rfl⟩, ⟨"", rfl⟩, ⟨"", rfl⟩, ⟨"", rfl⟩, ⟨"", rfl⟩,
    ⟨"", rfl⟩, ⟨"", rfl⟩, ⟨"", rfl⟩⟩

theorem validate_prescription_fixpoint {O : List (String × PyVal)} (h : PresNormal O) :
    validate_prescription_data (.dict O) = .dict O := by
  obtain ⟨hal, ⟨ms, hmed⟩, ⟨n, hage⟩, ⟨s1, h1⟩, ⟨s2, h2⟩, ⟨s3, h3⟩, ⟨s4, h4⟩,
    ⟨s5, h5⟩, ⟨s6, h6⟩, ⟨s7, h7⟩⟩ := h
  have hnodup : (keys default_prescription).Nodup := by decide
  have habs : dmerge default_prescription O = O := dmerge_absorb hnodup hal
  have hmap : (ms.map (fun m => PyVal.dict (validate_medication m))).map
      (fun m => PyVal.dict (validate_medication m))
      = ms.map (fun m => PyVal.dict (validate_medication m)) := by
    rw [List.map_map]
    apply List.map_congr_left
    intro a _
    simp only [Function.comp_apply]
    rw [validate_medication_idem]
  have e_med : dset O "medication"
      (.list (ms.map (fun m => PyVal.dict (validate_medication m)))) = O :=
    dset_absorb hnodup hal (by decide) hmed
  have e_age : setIntField O "age" = O := by
    unfold setIntField
    rw [hage]
    simp only [Option.getD_some]
    rw [coerceInt_int]
    exact dset_absorb hnodup hal (by decide) hage
  simp only [validate_prescription_data]
  rw [hmed]
  simp only [Option.getD_some, pyIter]
  rw [habs, hmap, e_med, e_age, fixStrNull_noop h1, fixStrNull_noop h2, fixStrNull_noop h3,
    fixStrNull_noop h4, fixStrNull_noop h5, fixStrNull_noop h6, fixStrNull_noop h7]

theorem validate_prescription_normal (v : PyVal) :
    ∃ O, validate_prescription_data v = .dict O ∧ PresNormal O := by
  cases v with
  | dict kvs =>
    simp only [validate_prescription_data]
    split
    · exact ⟨default_prescription, rfl, presNormal_default⟩
    · rename_i ms hiter
      refine ⟨_, rfl, ?_, ?_, ?_, ?_, ?_, ?_, ?_, ?_, ?_, ?_⟩
      · exact aligned_fixStrNull (aligned_fixStrNull (aligned_fixStrNull (aligned_fixStrNull
          (aligned_fixStrNull (aligned_fixStrNull (aligned_fixStrNull (aligned_setIntField
          (aligned_dset (aligned_dmerge ..) (by decide) _) (by decide)) (by decide))
          (by decide)) (by decide)) (by decide)) (by decide)) (by decide)) (by decide)
      · refine ⟨ms, ?_⟩
        rw [dget_fixStrNull_other (by decide), dget_fixStrNull_other (by decide),
          dget_fixStrNull_other (by decide), dget_fixStrNull_other (by decide),
          dget_fixStrNull_other (by decide), dget_fixStrNull_other (by decide),
          dget_fixStrNull_other (by decide), dget_setIntField_other (by decide),
          dget_dset_same]
      · rw [dget_fixStrNull_other (by decide), dget_fixStrNull_other (by decide),
          dget_fixStrNull_other (by decide), dget_fixStrNull_other (by decide),
          dget_fixStrNull_other (by decide), dget_fixStrNull_other (by decide),
          dget_fixStrNull_other (by decide), dget_setIntField_same]
        exact ⟨_, rfl⟩
      · rw [dget_fixStrNull_other (by decide), dget_fixStrNull_other (by decide),
          dget_fixStrNull_other (by decide), dget_fixStrNull_other (by decide),
          dget_fixStrNull_other (by decide), dget_fixStrNull_other (by decide),
          dget_fixStrNull_same]
        exact ⟨_, rfl⟩
      · rw [dget_fixStrNull_other (by decide), dget_fixStrNull_other (by decide),
          dget_fixStrNull_other (by decide), dget_fixStrNull_other (by decide),
          dget_fixStrNull_other (by decide), dget_fixStrNull_same]
        exact ⟨_, rfl⟩
      · rw [dget_fixStrNull_other (by decide), dget_fixStrNull_other (by decide),
          dget_fixStrNull_other (by decide), dget_fixStrNull_other (by decide),
          dget_fixStrNull_same]
        exact ⟨_, rfl⟩
      · rw [dget_fixStrNull_other (by decide), dget_fixStrNull_other (by decide),
          dget_fixStrNull_other (by decide), dget_fixStrNull_same]
        exact ⟨_, rfl⟩
      · rw [dget_fixStrNull_other (by decide), dget_fixStrNull_other (by decide),
          dget_fixStrNull_same]
        exact ⟨_, rfl⟩
      · rw [dget_fixStrNull_other (by decide), dget_fixStrNull_same]
        exact ⟨_, rfl⟩
      · rw [dget_fixStrNull_same]
        exact ⟨_, rfl⟩
  | none => exact ⟨default_prescription, rfl, presNormal_default⟩
  | bool b => exact ⟨default_prescription, rfl, presNormal_default⟩
  | int n => exact ⟨default_prescription, rfl, presNormal_default⟩
  | float q => exact ⟨default_prescription, rfl, presNormal_default⟩
  | str s => exact ⟨default_prescription, rfl, presNormal_default⟩
  | list xs => exact ⟨default_prescription, rfl, presNormal_default⟩
  | obj o => exact ⟨default_prescription, rfl, presNormal_default⟩

theorem validate_prescription_idem (v : PyVal) :
    validate_prescription_data (validate_prescription_data v) = validate_prescription_data v := by
  obtain ⟨O, hO, hn⟩ := validate_prescription_normal v
  rw [hO]
  exact validate_prescription_fixpoint hn

/-! ### Output characterization of validate_prescription_data -/

theorem pres_default_of_not_iterable {kvs : List (String × PyVal)}
    (h : pyIter ((dget kvs "medication").getD (.list [])) = Option.none) :
    validate_prescription_data (.dict kvs) = .dict default_prescription := by
  simp only [validate_prescription_data]
  rw [h]

theorem pres_medication {kvs : List (String × PyVal)} {ms : List PyVal}
    (hiter : pyIter ((dget kvs "medication").getD (.list [])) = some ms) :
    getField (validate_prescription_data (.dict kvs)) "medication"
      = some (.list (ms.map (fun m => PyVal.dict (validate_medication m)))) := by
  simp only [validate_prescription_data]
  rw [hiter]
  simp only [getField]
  rw [dget_fixStrNull_other (by decide), dget_fixStrNull_other (by decide),
    dget_fixStrNull_other (by decide), dget_fixStrNull_other (by decide),
    dget_fixStrNull_other (by decide), dget_fixStrNull_other (by decide),
    dget_fixStrNull_other (by decide), dget_setIntField_other (by decide),
    dget_dset_same]

theorem pres_age {kvs : List (String × PyVal)} {ms : List PyVal}
    (hiter : pyIter ((dget kvs "medication").getD (.list [])) = some ms) :
    getField (validate_prescription_data (.dict kvs)) "age"
      = some (.int (coerceInt ((dget kvs "age").getD (.int 0)))) := by
  simp only [validate_prescription_data]
  rw [hiter]
  simp only [getField]
  rw [dget_fixStrNull_other (by decide), dget_fixStrNull_other (by decide),
    dget_fixStrNull_other (by decide), dget_fixStrNull_other (by decide),
    dget_fixStrNull_other (by decide), dget_fixStrNull_other (by decide),
    dget_fixStrNull_other (by decide), dget_setIntField_same,
    dget_dset_other (by decide), dget_dmerge_left (show dget default_prescription "age"
      = some (.int 0) from rfl)]
  simp only [Option.getD_some]

theorem pres_strfield {kvs : List (String × PyVal)} {ms : List PyVal}
    (hiter : pyIter ((dget kvs "medication").getD (.list [])) = some ms)
    {f : String} (hf : f ∈ presStringFields) :
    getField (validate_prescription_data (.dict kvs)) f
      = some (.str (strNull ((dget kvs f).getD (.str "")))) := by
  simp only [validate_prescription_data]
  rw [hiter]
  simp only [getField]
  fin_cases hf
  · rw [dget_fixStrNull_other (by decide), dget_fixStrNull_other (by decide),
      dget_fixStrNull_other (by decide), dget_fixStrNull_other (by decide),
      dget_fixStrNull_other (by decide), dget_fixStrNull_other (by decide),
      dget_fixStrNull_same, dget_setIntField_other (by decide),
      dget_dset_other (by decide),
      dget_dmerge_left (show dget default_prescription "diagnosis" = some (.str "") from rfl)]
    simp only [Option.getD_some]
  · rw [dget_fixStrNull_other (by decide), dget_fixStrNull_other (by decide),
      dget_fixStrNull_other (by decide), dget_fixStrNull_other (by decide),
      dget_fixStrNull_other (by decide), dget_fixStrNull_same,
      dget_fixStrNull_other (by decide), dget_setIntField_other (by decide),
      dget_dset_other (by decide),
      dget_dmerge_left (show dget default_prescription "history" = some (.str "") from rfl)]
    simp only [Option.getD_some]
  · rw [dget_fixStrNull_other (by decide), dget_fixStrNull_other (by decide),
      dget_fixStrNull_other (by decide), dget_fixStrNull_other (by decide),
      dget_fixStrNull_same, dget_fixStrNull_other (by decide),
      dget_fixStrNull_other (by decide), dget_setIntField_other (by decide),
      dget_dset_other (by decide),
      dget_dmerge_left (show dget default_prescription "name" = some (.str "") from rfl)]
    simp only [Option.getD_some]
  · rw [dget_fixStrNull_other (by decide), dget_fixStrNull_other (by decide),
      dget_fixStrNull_other (by decide), dget_fixStrNull_same,
      dget_fixStrNull_other (by decide), dget_fixStrNull_other (by decide),
      dget_fixStrNull_other (by decide), dget_setIntField_other (by decide),
      dget_dset_other (by decide),
      dget_dmerge_left (show dget default_prescription "sex" = some (.str "") from rfl)]
    simp only [Option.getD_some]
  · rw [dget_fixStrNull_other (by decide), dget_fixStrNull_other (by decide),
      dget_fixStrNull_same, dget_fixStrNull_other (by decide),
      dget_fixStrNull_other (by decide), dget_fixStrNull_other (by decide),
      dget_fixStrNull_other (by decide), dget_setIntField_other (by decide),
      dget_dset_other (by decide),
      dget_dmerge_left (show dget default_prescription "test_suggested"
        = some (.str "") from rfl)]
    simp only [Option.getD_some]
  · rw [dget_fixStrNull_other (by decide), dget_fixStrNull_same,
      dget_fixStrNull_other (by decide), dget_fixStrNull_other (by decide),
      dget_fixStrNull_other (by decide), dget_fixStrNull_other (by decide),
      dget_fixStrNull_other (by decide), dget_setIntField_other (by decide),
      dget_dset_other (by decide),
      dget_dmerge_left (show dget default_prescription "test_results"
        = some (.str "") from rfl)]
    simp only [Option.getD_some]
  · rw [dget_fixStrNull_same, dget_fixStrNull_other (by decide),
      dget_fixStrNull_other (by decide), dget_fixStrNull_other (by decide),
      dget_fixStrNull_other (by decide), dget_fixStrNull_other (by decide),
      dget_fixStrNull_other (by decide), dget_setIntField_other (by decide),
      dget_dset_other (by decide),
      dget_dmerge_left (show dget default_prescription "medical_notes"
        = some (.str "") from rfl)]
    simp only [Option.getD_some]

theorem pres_extraneous {kvs : List (String × PyVal)} {ms : List PyVal}
    (hiter : pyIter ((dget kvs "medication").getD (.list [])) = some ms)
    {k : String} (hk : k ∉ keys default_prescription) :
    getField (validate_prescription_data (.dict kvs)) k = dget kvs k := by
  have h1 : k ≠ "diagnosis" := fun hh => hk (by rw [hh]; decide)
  have h2 : k ≠ "history" := fun hh => hk (by rw [hh]; decide)
  have h3 : k ≠ "name" := fun hh => hk (by rw [hh]; decide)
  have h4 : k ≠ "sex" := fun hh => hk (by rw [hh]; decide)
  have h5 : k ≠ "test_suggested" := fun hh => hk (by rw [hh]; decide)
  have h6 : k ≠ "test_results" := fun hh => hk (by rw [hh]; decide)
  have h7 : k ≠ "medical_notes" := fun hh => hk (by rw [hh]; decide)
  have h8 : k ≠ "age" := fun hh => hk (by rw [hh]; decide)
  have h9 : k ≠ "medication" := fun hh => hk (by rw [hh]; decide)
  simp only [validate_prescription_data]
  rw [hiter]
  simp only [getField]
  rw [dget_fixStrNull_other h7, dget_fixStrNull_other h6, dget_fixStrNull_other h5,
    dget_fixStrNull_other h4, dget_fixStrNull_other h3, dget_fixStrNull_other h2,
    dget_fixStrNull_other h1, dget_setIntField_other h8, dget_dset_other h9,
    dget_dmerge_right (dget_eq_none_of_not_mem_keys hk)]

/-! ### Output characterization of _validate_supplier_medicine -/

theorem dget_backfill_other {k' : String} (h : k' ≠ "selling_price")
    (d : List (String × PyVal)) :
    dget (backfillSellingPrice d) k' = dget d k' := by
  unfold backfillSellingPrice
  split
  · split
    · exact dget_dset_other h ..
    · rfl
  · rfl

theorem dget_backfill_selling {d : List (String × PyVal)} {sp m : Rat}
    (h : dget d "selling_price" = some (.float sp)) (hm : dget d "mrp" = some (.float m)) :
    dget (backfillSellingPrice d) "selling_price"
      = some (.float (if sp = 0 ∧ 0 < m then m else sp)) := by
  unfold backfillSellingPrice
  rw [h, hm]
  simp only [Option.getD_some]
  by_cases hc : sp = 0 ∧ 0 < m
  · rw [if_pos hc, if_pos hc, dget_dset_same]
  · rw [if_neg hc, if_neg hc, h]

theorem supmed_stage7 (kvs : List (String × PyVal)) :
    dget (setFloatField (setFloatField (setFloatField (setIntField (setStrTruthy
        (setStrTruthy (setStrTruthy (dmerge default_supplier_medicine kvs)
        "medicine_name") "dosage") "expiry_date") "quantity") "mrp") "buying_price")
        "selling_price") "selling_price"
      = some (.float (coerceFloat ((dget kvs "selling_price").getD (.float 0)))) ∧
    dget (setFloatField (setFloatField (setFloatField (setIntField (setStrTruthy
        (setStrTruthy (setStrTruthy (dmerge default_supplier_medicine kvs)
        "medicine_name") "dosage") "expiry_date") "quantity") "mrp") "buying_price")
        "selling_price") "mrp"
      = some (.float (coerceFloat ((dget kvs "mrp").getD (.float 0)))) := by
  constructor
  · rw [dget_setFloatField_same, dget_setFloatField_other (by decide),
      dget_setFloatField_other (by decide), dget_setIntField_other (by decide),
      dget_setStrTruthy_other (by decide), dget_setStrTruthy_other (by decide),
      dget_setStrTruthy_other (by decide),
      dget_dmerge_left (show dget default_supplier_medicine "selling_price"
        = some (.float 0) from rfl)]
    simp only [Option.getD_some]
  · rw [dget_setFloatField_other (by decide), dget_setFloatField_other (by decide),
      dget_setFloatField_same, dget_setIntField_other (by decide),
      dget_setStrTruthy_other (by decide), dget_setStrTruthy_other (by decide),
      dget_setStrTruthy_other (by decide),
      dget_dmerge_left (show dget default_supplier_medicine "mrp"
        = some (.float 0) from rfl)]
    simp only [Option.getD_some]

theorem validate_supplier_medicine_out (kvs : List (String × PyVal)) :
    dget (validate_supplier_medicine (.dict kvs)) "medicine_name"
      = some (.str (strTruthy ((dget kvs "medicine_name").getD (.str "")))) ∧
    dget (validate_supplier_medicine (.dict kvs)) "dosage"
      = some (.str (strTruthy ((dget kvs "dosage").getD (.str "")))) ∧
    dget (validate_supplier_medicine (.dict kvs)) "expiry_date"
      = some (.str (strTruthy ((dget kvs "expiry_date").getD (.str "")))) ∧
    dget (validate_supplier_medicine (.dict kvs)) "quantity"
      = some (.int (coerceInt ((dget kvs "quantity").getD (.int 0)))) ∧
    dget (validate_supplier_medicine (.dict kvs)) "mrp"
      = some (.float (coerceFloat ((dget kvs "mrp").getD (.float 0)))) ∧
    dget (validate_supplier_medicine (.dict kvs)) "buying_price"
      = some (.float (coerceFloat ((dget kvs "buying_price").getD (.float 0)))) ∧
    dget (validate_supplier_medicine (.dict kvs)) "selling_price"
      = some (.float
          (if coerceFloat ((dget kvs "selling_price").getD (.float 0)) = 0 ∧
              0 < coerceFloat ((dget kvs "mrp").getD (.float 0))
            then coerceFloat ((dget kvs "mrp").getD (.float 0))
            else coerceFloat ((dget kvs "selling_price").getD (.float 0)))) ∧
    dget (validate_supplier_medicine (.dict kvs)) "batch_number"
      = some (.str (strTruthy ((dget kvs "batch_number").getD (.str "")))) ∧
    dget (validate_supplier_medicine (.dict kvs)) "manufacturer"
      = some (.str (strTruthy ((dget kvs "manufacturer").getD (.str "")))) := by
  obtain ⟨hsp7, hm7⟩ := supmed_stage7 kvs
  simp only [validate_supplier_medicine]
  refine ⟨?_, ?_, ?_, ?_, ?_, ?_, ?_, ?_, ?_⟩
  · rw [dget_setStrTruthy_other (by decide), dget_setStrTruthy_other (by decide),
      dget_backfill_other (by decide), dget_setFloatField_other (by decide),
      dget_setFloatField_other (by decide), dget_setFloatField_other (by decide),
      dget_setIntField_other (by decide), dget_setStrTruthy_other (by decide),
      dget_setStrTruthy_other (by decide), dget_setStrTruthy_same,
      dget_dmerge_left (show dget default_supplier_medicine "medicine_name"
        = some (.str "") from rfl)]
    simp only [Option.getD_some]
  · rw [dget_setStrTruthy_other (by decide), dget_setStrTruthy_other (by decide),
      dget_backfill_other (by decide), dget_setFloatField_other (by decide),
      dget_setFloatField_other (by decide), dget_setFloatField_other (by decide),
      dget_setIntField_other (by decide), dget_setStrTruthy_other (by decide),
      dget_setStrTruthy_same, dget_setStrTruthy_other (by decide),
      dget_dmerge_left (show dget default_supplier_medicine "dosage"
        = some (.str "") from rfl)]
    simp only [Option.getD_some]
  · rw [dget_setStrTruthy_other (by decide), dget_setStrTruthy_other (by decide),
      dget_backfill_other (by decide), dget_setFloatField_other (by decide),
      dget_setFloatField_other (by decide), dget_setFloatField_other (by decide),
      dget_setIntField_other (by decide), dget_setStrTruthy_same,
      dget_setStrTruthy_other (by decide), dget_setStrTruthy_other (by decide),
      dget_dmerge_left (show dget default_supplier_medicine "expiry_date"
        = some (.str "") from rfl)]
    simp only [Option.getD_some]
  · rw [dget_setStrTruthy_other (by decide), dget_setStrTruthy_other (by decide),
      dget_backfill_other (by decide), dget_setFloatField_other (by decide),
      dget_setFloatField_other (by decide), dget_setFloatField_other (by decide),
      dget_setIntField_same, dget_setStrTruthy_other (by decide),
      dget_setStrTruthy_other (by decide), dget_setStrTruthy_other (by decide),
      dget_dmerge_left (show dget default_supplier_medicine "quantity"
        = some (.int 0) from rfl)]
    simp only [Option.getD_some]
  · rw [dget_setStrTruthy_other (by decide), dget_setStrTruthy_other (by decide),
      dget_backfill_other (by decide), hm7]
  · rw [dget_setStrTruthy_other (by decide), dget_setStrTruthy_other (by decide),
      dget_backfill_other (by decide), dget_setFloatField_other (by decide),
      dget_setFloatField_same, dget_setFloatField_other (by decide),
      dget_setIntField_other (by decide), dget_setStrTruthy_other (by decide),
      dget_setStrTruthy_other (by decide), dget_setStrTruthy_other (by decide),
      dget_dmerge_left (show dget default_supplier_medicine "buying_price"
        = some (.float 0) from rfl)]
    simp only [Option.getD_some]
  · rw [dget_setStrTruthy_other (by decide), dget_setStrTruthy_other (by decide),
      dget_backfill_selling hsp7 hm7]
  · rw [dget_setStrTruthy_other (by decide), dget_setStrTruthy_same,
      dget_backfill_other (by decide), dget_setFloatField_other (by decide),
      dget_setFloatField_other (by decide), dget_setFloatField_other (by decide),
      dget_setIntField_other (by decide), dget_setStrTruthy_other (by decide),
      dget_setStrTruthy_other (by decide), dget_setStrTruthy_other (by decide),
      dget_dmerge_left (show dget default_supplier_medicine "batch_number"
        = some (.str "") from rfl)]
    simp only [Option.getD_some]
  · rw [dget_setStrTruthy_same, dget_setStrTruthy_other (by decide),
      dget_backfill_other (by decide), dget_setFloatField_other (by decide),
      dget_setFloatField_other (by decide), dget_setFloatField_other (by decide),
      dget_setIntField_other (by decide), dget_setStrTruthy_other (by decide),
      dget_setStrTruthy_other (by decide), dget_setStrTruthy_other (by decide),
      dget_dmerge_left (show dget default_supplier_medicine "manufacturer"
        = some (.str "") from rfl)]
    simp only [Option.getD_some]

theorem validate_supplier_out (kvs : List (String × PyVal)) {f : String}
    (hf : f ∈ supplierFields) :
    dget (validate_supplier (.dict kvs)) f
      = some (.str (strNull ((dget kvs f).getD (.str "")))) := by
  simp only [validate_supplier]
  fin_cases hf
  · rw [dget_fixStrNull_other (by decide),
      dget_fixStrNull_other (by decide),
      dget_fixStrNull_other (by decide),
      dget_fixStrNull_other (by decide),
      dget_fixStrNull_other (by decide),
      dget_fixStrNull_other (by decide),
      dget_fixStrNull_other (by decide),
      dget_fixStrNull_other (by decide),
      dget_fixStrNull_other (by decide),
      dget_fixStrNull_same,
      dget_dmerge_left (show dget default_supplier "name" = some (.str "") from rfl)]
    simp only [Option.getD_some]
  · rw [dget_fixStrNull_other (by decide),
      dget_fixStrNull_other (by decide),
      dget_fixStrNull_other (by decide),
      dget_fixStrNull_other (by decide),
      dget_fixStrNull_other (by decide),
      dget_fixStrNull_other (by decide),
      dget_fixStrNull_other (by decide),
      dget_fixStrNull_other (by decide),
      dget_fixStrNull_same,
      dget_fixStrNull_other (by decide),
      dget_dmerge_left (show dget default_supplier "gst_number" = some (.str "") from rfl)]
    simp only [Option.getD_some]
  · rw [dget_fixStrNull_other (by decide),
      dget_fixStrNull_other (by decide),
      dget_fixStrNull_other (by decide),
      dget_fixStrNull_other (by decide),
      dget_fixStrNull_other (by decide),
      dget_fixStrNull_other (by decide),
      dget_fixStrNull_other (by decide),
      dget_fixStrNull_same,
      dget_fixStrNull_other (by decide),
      dget_fixStrNull_other (by decide),
      dget_dmerge_left (show dget default_supplier "address_line1" = some (.str "") from rfl)]
    simp only [Option.getD_some]
  · rw [dget_fixStrNull_other (by decide),
      dget_fixStrNull_other (by decide),
      dget_fixStrNull_other (by decide),
      dget_fixStrNull_other (by decide),
      dget_fixStrNull_other (by decide),
      dget_fixStrNull_other (by decide),
      dget_fixStrNull_same,
      dget_fixStrNull_other (by decide),
      dget_fixStrNull_other (by decide),
      dget_fixStrNull_other (by decide),
      dget_dmerge_left (show dget default_supplier "address_line2" = some (.str "") from rfl)]
    simp only [Option.getD_some]
  · rw [dget_fixStrNull_other (by decide),
      dget_fixStrNull_other (by decide),
      dget_fixStrNull_other (by decide),
      dget_fixStrNull_other (by decide),
      dget_fixStrNull_other (by decide),
      dget_fixStrNull_same,
      dget_fixStrNull_other (by decide),
      dget_fixStrNull_other (by decide),
      dget_fixStrNull_other (by decide),
      dget_fixStrNull_other (by decide),
      dget_dmerge_left (show dget default_supplier "city" = some (.str "") from rfl)]
    simp only [Option.getD_some]
  · rw [dget_fixStrNull_other (by decide),
      dget_fixStrNull_other (by decide),
      dget_fixStrNull_other (by decide),
      dget_fixStrNull_other (by decide),
      dget_fixStrNull_same,
      dget_fixStrNull_other (by decide),
      dget_fixStrNull_other (by decide),
      dget_fixStrNull_other (by decide),
      dget_fixStrNull_other (by decide),
      dget_fixStrNull_other (by decide),
      dget_dmerge_left (show dget default_supplier "state" = some (.str "") from rfl)]
    simp only [Option.getD_some]
  · rw [dget_fixStrNull_other (by decide),
      dget_fixStrNull_other (by decide),
      dget_fixStrNull_other (by decide),
      dget_fixStrNull_same,
      dget_fixStrNull_other (by decide),
      dget_fixStrNull_other (by decide),
      dget_fixStrNull_other (by decide),
      dget_fixStrNull_other (by decide),
      dget_fixStrNull_other (by decide),
      dget_fixStrNull_other (by decide),
      dget_dmerge_left (show dget default_supplier "phone" = some (.str "") from rfl)]
    simp only [Option.getD_some]
  · rw [dget_fixStrNull_other (by decide),
      dget_fixStrNull_other (by decide),
      dget_fixStrNull_same,
      dget_fixStrNull_other (by decide),
      dget_fixStrNull_other (by decide),
      dget_fixStrNull_other (by decide),
      dget_fixStrNull_other (by decide),
      dget_fixStrNull_other (by decide),
      dget_fixStrNull_other (by decide),
      dget_fixStrNull_other (by decide),
      dget_dmerge_left (show dget default_supplier "email" = some (.str "") from rfl)]
    simp only [Option.getD_some]
  · rw [dget_fixStrNull_other (by decide),
      dget_fixStrNull_same,
      dget_fixStrNull_other (by decide),
      dget_fixStrNull_other (by decide),
      dget_fixStrNull_other (by decide),
      dget_fixStrNull_other (by decide),
      dget_fixStrNull_other (by decide),
      dget_fixStrNull_other (by decide),
      dget_fixStrNull_other (by decide),
      dget_fixStrNull_other (by decide),
      dget_dmerge_left (show dget default_supplier "contact_person_name" = some (.str "") from rfl)]
    simp only [Option.getD_some]
  · rw [dget_fixStrNull_same,
      dget_fixStrNull_other (by decide),
      dget_fixStrNull_other (by decide),
      dget_fixStrNull_other (by decide),
      dget_fixStrNull_other (by decide),
      dget_fixStrNull_other (by decide),
      dget_fixStrNull_other (by decide),
      dget_fixStrNull_other (by decide),
      dget_fixStrNull_other (by decide),
      dget_fixStrNull_other (by decide),
      dget_dmerge_left (show dget default_supplier "contact_person_phone" = some (.str "") from rfl)]
    simp only [Option.getD_some]

/-! ### Output characterization of _validate_medication -/

theorem vm_chain_fields (W : List (String × PyVal)) (τ : PyVal) :
    (∀ k', k' ≠ "tapering" → k' ≠ "medicine_name" → k' ≠ "dosage" → k' ≠ "days" →
      k' ≠ "is_sos" →
      dget (setBoolTruthy (setIntField (setStrTruthy (setStrTruthy (dset W "tapering" τ)
        "medicine_name") "dosage") "days") "is_sos") k' = dget W k') ∧
    dget (setBoolTruthy (setIntField (setStrTruthy (setStrTruthy (dset W "tapering" τ)
        "medicine_name") "dosage") "days") "is_sos") "tapering" = some τ ∧
    dget (setBoolTruthy (setIntField (setStrTruthy (setStrTruthy (dset W "tapering" τ)
        "medicine_name") "dosage") "days") "is_sos") "medicine_name"
      = some (.str (strTruthy ((dget W "medicine_name").getD .none))) ∧
    dget (setBoolTruthy (setIntField (setStrTruthy (setStrTruthy (dset W "tapering" τ)
        "medicine_name") "dosage") "days") "is_sos") "dosage"
      = some (.str (strTruthy ((dget W "dosage").getD .none))) ∧
    dget (setBoolTruthy (setIntField (setStrTruthy (setStrTruthy (dset W "tapering" τ)
        "medicine_name") "dosage") "days") "is_sos") "days"
      = some (.int (coerceInt ((dget W "days").getD .none))) ∧
    dget (setBoolTruthy (setIntField (setStrTruthy (setStrTruthy (dset W "tapering" τ)
        "medicine_name") "dosage") "days") "is_sos") "is_sos"
      = some (.bool (pyTruthy ((dget W "is_sos").getD .none))) := by
  refine ⟨?_, ?_, ?_, ?_, ?_, ?_⟩
  · intro k' h1 h2 h3 h4 h5
    rw [dget_setBoolTruthy_other h5, dget_setIntField_other h4,
      dget_setStrTruthy_other h3, dget_setStrTruthy_other h2, dget_dset_other h1]
  · rw [dget_setBoolTruthy_other (by decide), dget_setIntField_other (by decide),
      dget_setStrTruthy_other (by decide), dget_setStrTruthy_other (by decide),
      dget_dset_same]
  · rw [dget_setBoolTruthy_other (by decide), dget_setIntField_other (by decide),
      dget_setStrTruthy_other (by decide), dget_setStrTruthy_same,
      dget_dset_other (by decide)]
  · rw [dget_setBoolTruthy_other (by decide), dget_setIntField_other (by decide),
      dget_setStrTruthy_same, dget_setStrTruthy_other (by decide),
      dget_dset_other (by decide)]
  · rw [dget_setBoolTruthy_other (by decide), dget_setIntField_same,
      dget_setStrTruthy_other (by decide), dget_setStrTruthy_other (by decide),
      dget_dset_other (by decide)]
  · rw [dget_setBoolTruthy_same, dget_setIntField_other (by decide),
      dget_setStrTruthy_other (by decide), dget_setStrTruthy_other (by decide),
      dget_dset_other (by decide)]

theorem vm_eq_absent {kvs fkvs qkvs : List (String × PyVal)}
    (hf : (dget kvs "food").getD (.dict []) = .dict fkvs)
    (hq : (dget kvs "frequency").getD (.dict []) = .dict qkvs)
    (hτ : taperingAbsent ((dget kvs "tapering").getD .none) = true) :
    validate_medication (.dict kvs) =
      setBoolTruthy (setIntField (setStrTruthy (setStrTruthy
        (dset (dset (dset (dmerge default_medication kvs)
          "food" (.dict (dmerge default_food fkvs)))
          "frequency" (.dict (dmerge default_frequency qkvs)))
          "tapering" PyVal.none)
        "medicine_name") "dosage") "days") "is_sos" := by
  simp only [validate_medication]
  rw [hf]
  simp only [Option.getD_some]
  rw [hq]
  simp only [Option.getD_some]
  split
  · rename_i heq
    split at heq
    · rename_i t ts hl
      rw [hl] at hτ
      simp [taperingAbsent] at hτ
    · simp at heq
  · rename_i v heq
    split at heq
    · rename_i t ts hl
      rw [hl] at hτ
      simp [taperingAbsent] at hτ
    · injection heq with heq'
      subst heq'
      rfl

theorem vm_eq_list {kvs fkvs qkvs : List (String × PyVal)} {t : PyVal}
    {ts vts : List PyVal}
    (hf : (dget kvs "food").getD (.dict []) = .dict fkvs)
    (hq : (dget kvs "frequency").getD (.dict []) = .dict qkvs)
    (hl : (dget kvs "tapering").getD .none = .list (t :: ts))
    (hm : mapOpt validate_tapering_elem (t :: ts) = some vts) :
    validate_medication (.dict kvs) =
      setBoolTruthy (setIntField (setStrTruthy (setStrTruthy
        (dset (dset (dset (dmerge default_medication kvs)
          "food" (.dict (dmerge default_food fkvs)))
          "frequency" (.dict (dmerge default_frequency qkvs)))
          "tapering" (.list vts))
        "medicine_name") "dosage") "days") "is_sos" := by
  simp only [validate_medication]
  rw [hf]
  simp only [Option.getD_some]
  rw [hq]
  simp only [Option.getD_some]
  rw [hl]
  simp only [Option.getD_some]
  rw [hm]

theorem taperingAbsent_false {v : PyVal} (h : taperingAbsent v = false) :
    ∃ t ts, v = .list (t :: ts) := by
  cases v with
  | list xs =>
    cases xs with
    | nil => simp [taperingAbsent] at h
    | cons t ts => exact ⟨t, ts, rfl⟩
  | none => simp [taperingAbsent] at h
  | bool b => simp [taperingAbsent] at h
  | int n => simp [taperingAbsent] at h
  | float q => simp [taperingAbsent] at h
  | str s => simp [taperingAbsent] at h
  | dict d => simp [taperingAbsent] at h
  | obj o => simp [taperingAbsent] at h

theorem vm_out_fields_of_eq {kvs fkvs qkvs : List (String × PyVal)} {τ : PyVal}
    (heq : validate_medication (.dict kvs) =
      setBoolTruthy (setIntField (setStrTruthy (setStrTruthy
        (dset (dset (dset (dmerge default_medication kvs)
          "food" (.dict (dmerge default_food fkvs)))
          "frequency" (.dict (dmerge default_frequency qkvs)))
          "tapering" τ)
        "medicine_name") "dosage") "days") "is_sos") :
    dget (validate_medication (.dict kvs)) "food"
      = some (.dict (dmerge default_food fkvs)) ∧
    dget (validate_medication (.dict kvs)) "frequency"
      = some (.dict (dmerge default_frequency qkvs)) ∧
    dget (validate_medication (.dict kvs)) "medicine_name"
      = some (.str (strTruthy ((dget kvs "medicine_name").getD (.str "")))) ∧
    dget (validate_medication (.dict kvs)) "dosage"
      = some (.str (strTruthy ((dget kvs "dosage").getD (.str "")))) ∧
    dget (validate_medication (.dict kvs)) "days"
      = some (.int (coerceInt ((dget kvs "days").getD (.int 0)))) ∧
    dget (validate_medication (.dict kvs)) "is_sos"
      = some (.bool (pyTruthy ((dget kvs "is_sos").getD (.bool false)))) := by
  obtain ⟨hpass, htap, hname, hdos, hdays, hsos⟩ := vm_chain_fields
    (dset (dset (dmerge default_medication kvs)
      "food" (.dict (dmerge default_food fkvs)))
      "frequency" (.dict (dmerge default_frequency qkvs))) τ
  rw [heq]
  refine ⟨?_, ?_, ?_, ?_, ?_, ?_⟩
  · rw [hpass "food" (by decide) (by decide) (by decide) (by decide) (by decide),
      dget_dset_other (by decide), dget_dset_same]
  · rw [hpass "frequency" (by decide) (by decide) (by decide) (by decide) (by decide),
      dget_dset_same]
  · rw [hname, dget_dset_other (by decide), dget_dset_other (by decide),
      dget_dmerge_left (show dget default_medication "medicine_name"
        = some (.str "") from rfl)]
    simp only [Option.getD_some]
  · rw [hdos, dget_dset_other (by decide), dget_dset_other (by decide),
      dget_dmerge_left (show dget default_medication "dosage" = some (.str "") from rfl)]
    simp only [Option.getD_some]
  · rw [hdays, dget_dset_other (by decide), dget_dset_other (by decide),
      dget_dmerge_left (show dget default_medication "days" = some (.int 0) from rfl)]
    simp only [Option.getD_some]
  · rw [hsos, dget_dset_other (by decide), dget_dset_other (by decide),
      dget_dmerge_left (show dget default_medication "is_sos" = some (.bool false) from rfl)]
    simp only [Option.getD_some]

theorem vm_out_fields {kvs fkvs qkvs : List (String × PyVal)}
    (hf : (dget kvs "food").getD (.dict []) = .dict fkvs)
    (hq : (dget kvs "frequency").getD (.dict []) = .dict qkvs)
    (htok : taperingOk kvs = true) :
    dget (validate_medication (.dict kvs)) "food"
      = some (.dict (dmerge default_food fkvs)) ∧
    dget (validate_medication (.dict kvs)) "frequency"
      = some (.dict (dmerge default_frequency qkvs)) ∧
    dget (validate_medication (.dict kvs)) "medicine_name"
      = some (.str (strTruthy ((dget kvs "medicine_name").getD (.str "")))) ∧
    dget (validate_medication (.dict kvs)) "dosage"
      = some (.str (strTruthy ((dget kvs "dosage").getD (.str "")))) ∧
    dget (validate_medication (.dict kvs)) "days"
      = some (.int (coerceInt ((dget kvs "days").getD (.int 0)))) ∧
    dget (validate_medication (.dict kvs)) "is_sos"
      = some (.bool (pyTruthy ((dget kvs "is_sos").getD (.bool false)))) := by
  cases habs : taperingAbsent ((dget kvs "tapering").getD .none) with
  | true => exact vm_out_fields_of_eq (vm_eq_absent hf hq habs)
  | false =>
    obtain ⟨t, ts, hl⟩ := taperingAbsent_false habs
    unfold taperingOk at htok
    rw [hl] at htok
    simp only [] at htok
    rcases hm : mapOpt validate_tapering_elem (t :: ts) with _ | vts
    · rw [hm] at htok
      simp at htok
    · exact vm_out_fields_of_eq (vm_eq_list hf hq hl hm)

theorem vm_out_tapering_absent {kvs fkvs qkvs : List (String × PyVal)}
    (hf : (dget kvs "food").getD (.dict []) = .dict fkvs)
    (hq : (dget kvs "frequency").getD (.dict []) = .dict qkvs)
    (hτ : taperingAbsent ((dget kvs "tapering").getD .none) = true) :
    dget (validate_medication (.dict kvs)) "tapering" = some PyVal.none := by
  rw [vm_eq_absent hf hq hτ]
  exact (vm_chain_fields _ _).2.1

theorem vm_out_tapering_list {kvs fkvs qkvs : List (String × PyVal)} {t : PyVal}
    {ts vts : List PyVal}
    (hf : (dget kvs "food").getD (.dict []) = .dict fkvs)
    (hq : (dget kvs "frequency").getD (.dict []) = .dict qkvs)
    (hl : (dget kvs "tapering").getD .none = .list (t :: ts))
    (hm : mapOpt validate_tapering_elem (t :: ts) = some vts) :
    dget (validate_medication (.dict kvs)) "tapering" = some (.list vts) := by
  rw [vm_eq_list hf hq hl hm]
  exact (vm_chain_fields _ _).2.1

theorem validate_tapering_elem_out (tkvs : List (String × PyVal)) :
    ∃ w, validate_tapering_elem (.dict tkvs) = some (.dict w) ∧
      dget w "frequency" = some (match (dget tkvs "frequency").getD (.str "") with
        | .str s => .str s
        | _ => .str "") ∧
      dget w "days" = some ((dget tkvs "days").getD (.int 0)) ∧
      dget w "comments" = some ((dget tkvs "comments").getD (.str "")) := by
  have hfreq : dget (dmerge default_tapering tkvs) "frequency"
      = some ((dget tkvs "frequency").getD (.str "")) :=
    dget_dmerge_left (show dget default_tapering "frequency" = some (.str "") from rfl) _
  have hdays : dget (dmerge default_tapering tkvs) "days"
      = some ((dget tkvs "days").getD (.int 0)) :=
    dget_dmerge_left (show dget default_tapering "days" = some (.int 0) from rfl) _
  have hcom : dget (dmerge default_tapering tkvs) "comments"
      = some ((dget tkvs "comments").getD (.str "")) :=
    dget_dmerge_left (show dget default_tapering "comments" = some (.str "") from rfl) _
  simp only [validate_tapering_elem]
  split
  · rename_i s hs
    rw [hfreq] at hs
    simp only [Option.getD_some] at hs
    refine ⟨dmerge default_tapering tkvs, rfl, ?_, hdays, hcom⟩
    rw [hfreq, hs]
  · rename_i hns
    refine ⟨dset (dmerge default_tapering tkvs) "frequency" (.str ""), rfl, ?_, ?_, ?_⟩
    · rw [dget_dset_same]
      rcases hv : (dget tkvs "frequency").getD (.str "") with _ | b | n | q | s | xs | d | o
      · rfl
      · rfl
      · rfl
      · rfl
      · exfalso
        apply hns s
        rw [hfreq]
        simp only [Option.getD_some]
        exact hv
      · rfl
      · rfl
      · rfl
    · rw [dget_dset_other (by decide), hdays]
    · rw [dget_dset_other (by decide), hcom]

theorem dget_default_food_flag {k : String} (hk : k ∈ keys default_food) :
    dget default_food k = some (.bool false) := by
  fin_cases hk <;> rfl

theorem dget_default_frequency_flag {k : String} (hk : k ∈ keys default_frequency) :
    dget default_frequency k = some (.bool false) := by
  fin_cases hk <;> rfl

/-! ### Claims -/

/-- C2: normalizing the empty mapping with either normalizer yields the
all-defaults record: `age` 0, `medication`/`medicines` empty, all string
fields `""`, `followUp` `None` (the service's encoding of "absent"; with no
medication entries there is no tapering anywhere), and the supplier bill DTO
with every supplier field the empty string and no medicine lines. -/
theorem C2_empty_mapping_defaults :
    validate_prescription_data (.dict []) = .dict default_prescription ∧
    getField (validate_prescription_data (.dict [])) "age" = some (.int 0) ∧
    getField (validate_prescription_data (.dict [])) "medication" = some (.list []) ∧
    getField (validate_prescription_data (.dict [])) "followUp" = some PyVal.none ∧
    getField (validate_prescription_data (.dict [])) "diagnosis" = some (.str "") ∧
    getField (validate_prescription_data (.dict [])) "history" = some (.str "") ∧
    getField (validate_prescription_data (.dict [])) "name" = some (.str "") ∧
    getField (validate_prescription_data (.dict [])) "sex" = some (.str "") ∧
    getField (validate_prescription_data (.dict [])) "test_suggested" = some (.str "") ∧
    getField (validate_prescription_data (.dict [])) "test_results" = some (.str "") ∧
    getField (validate_prescription_data (.dict [])) "medical_notes" = some (.str "") ∧
    validate_supplier_bill_data (.dict []) =
      ⟨⟨"", some "", some "", some "", some "", some "", some "", some "", some "",
        some ""⟩, "", []⟩ ∧
    (validate_supplier_bill_data (.dict [])).bill_number = "" ∧
    (validate_supplier_bill_data (.dict [])).medicines = [] :=
  ⟨rfl, rfl, rfl, rfl, rfl, rfl, rfl, rfl, rfl, rfl, rfl, rfl, rfl, rfl⟩

/-- C3 counterexample: the spec's own example element
`\x7b"frequency": 5, "days": "3", "comments": "taper"\x7d` normalizes with
`days` left as the string `"3"`, not coerced to the integer 3 — lines 159-164
only merge the tapering defaults and force `frequency`, never touching
`days`. -/
theorem C3_counterexample :
    dget (validate_medication (.dict [("tapering", .list [.dict
      [("frequency", .int 5), ("days", .str "3"), ("comments", .str "taper")]])]))
      "tapering"
      = some (.list [.dict [("frequency", .str ""), ("days", .str "3"),
          ("comments", .str "taper")]]) ∧
    PyVal.str "3" ≠ PyVal.int 3 :=
  ⟨rfl, by simp⟩

/-- C3 (amended): a raw tapering value that is absent, null, an empty list,
or any non-list normalizes to tapering absent (`None`); a nonempty list of
dict elements normalizes element-wise by merging against the tapering
defaults with a non-string `frequency` forced to `""`; `days` and `comments`
are passed through unchanged (in particular `days` is NOT coerced to an
integer: the example element keeps `days = "3"`). -/
theorem C3_amended :
    (∀ kvs fkvs qkvs : List (String × PyVal),
      (dget kvs "food").getD (.dict []) = .dict fkvs →
      (dget kvs "frequency").getD (.dict []) = .dict qkvs →
      taperingAbsent ((dget kvs "tapering").getD .none) = true →
      dget (validate_medication (.dict kvs)) "tapering" = some PyVal.none) ∧
    (∀ (kvs fkvs qkvs : List (String × PyVal)) (t : PyVal) (ts vts : List PyVal),
      (dget kvs "food").getD (.dict []) = .dict fkvs →
      (dget kvs "frequency").getD (.dict []) = .dict qkvs →
      (dget kvs "tapering").getD .none = .list (t :: ts) →
      mapOpt validate_tapering_elem (t :: ts) = some vts →
      dget (validate_medication (.dict kvs)) "tapering" = some (.list vts)) ∧
    (∀ tkvs : List (String × PyVal), ∃ w,
      validate_tapering_elem (.dict tkvs) = some (.dict w) ∧
      dget w "frequency" = some (match (dget tkvs "frequency").getD (.str "") with
        | .str s => .str s
        | _ => .str "") ∧
      dget w "days" = some ((dget tkvs "days").getD (.int 0)) ∧
      dget w "comments" = some ((dget tkvs "comments").getD (.str ""))) ∧
    dget (validate_medication (.dict [("tapering", .list [.dict
      [("frequency", .int 5), ("days", .str "3"), ("comments", .str "taper")]])]))
      "tapering"
      = some (.list [.dict [("frequency", .str ""), ("days", .str "3"),
          ("comments", .str "taper")]]) :=
  ⟨fun _ _ _ hf hq hτ => vm_out_tapering_absent hf hq hτ,
   fun _ _ _ _ _ _ hf hq hl hm => vm_out_tapering_list hf hq hl hm,
   validate_tapering_elem_out, rfl⟩

theorem C3_witness :
    dget (validate_medication (.dict [])) "tapering" = some PyVal.none ∧
    dget (validate_medication (.dict [("tapering", .list [.dict []])])) "tapering"
      = some (.list [.dict default_tapering]) :=
  ⟨C3_amended.1 [] [] [] rfl rfl rfl,
   C3_amended.2.1 [("tapering", .list [.dict []])] [] [] (.dict []) []
     [.dict default_tapering] rfl rfl rfl rfl⟩

/-- C5: `selling_price` is backfilled from `mrp` exactly when the coerced
selling price is the missing-marker 0.0 (absent, falsy, or unparseable raw
value — the shared coercion rule makes literal 0.0 indistinguishable from
missing) and the coerced `mrp` is positive; including the spec's two
examples. -/
theorem C5_selling_price_backfill :
    (∀ kvs : List (String × PyVal),
      dget (validate_supplier_medicine (.dict kvs)) "selling_price"
        = some (.float
            (if coerceFloat ((dget kvs "selling_price").getD (.float 0)) = 0 ∧
                0 < coerceFloat ((dget kvs "mrp").getD (.float 0))
              then coerceFloat ((dget kvs "mrp").getD (.float 0))
              else coerceFloat ((dget kvs "selling_price").getD (.float 0))))) ∧
    dget (validate_supplier_medicine (.dict [("mrp", .float 120)])) "selling_price"
      = some (.float 120) ∧
    dget (validate_supplier_medicine (.dict [("mrp", .float 120),
      ("selling_price", .float 80)])) "selling_price" = some (.float 80) :=
  ⟨fun kvs => (validate_supplier_medicine_out kvs).2.2.2.2.2.2.1, rfl, rfl⟩

/-- C6: medication entries are normalized independently and in place: the
output medication list is exactly the element-wise normalization of the raw
list (same length, order preserved); a non-mapping entry raises inside
`_validate_medication` and becomes the default entry; in the spec's example
the first entry keeps `medicine_name = "X"` with `days` coerced to 0 and the
throwing second entry (`food` not a mapping) becomes the fully default entry. -/
theorem C6_entry_isolation :
    (∀ (ms : List PyVal) (rest : List (String × PyVal)),
      getField (validate_prescription_data (.dict (("medication", .list ms) :: rest)))
        "medication"
        = some (.list (ms.map (fun m => PyVal.dict (validate_medication m))))) ∧
    (∀ m : PyVal, (∀ kvs, m ≠ .dict kvs) → validate_medication m = default_medication) ∧
    getField (validate_prescription_data (.dict [("medication", .list
      [.dict [("medicine_name", .str "X"), ("days", .str "abc")],
       .dict [("food", .int 5)]])])) "medication"
      = some (.list
          [.dict (validate_medication (.dict [("medicine_name", .str "X"),
            ("days", .str "abc")])),
           .dict default_medication]) ∧
    dget (validate_medication (.dict [("medicine_name", .str "X"),
      ("days", .str "abc")])) "medicine_name" = some (.str "X") ∧
    dget (validate_medication (.dict [("medicine_name", .str "X"),
      ("days", .str "abc")])) "days" = some (.int 0) := by
  refine ⟨?_, ?_, rfl, rfl, rfl⟩
  · intro ms rest
    exact pres_medication (by rw [dget_cons, if_pos rfl]; rfl)
  · intro m hm
    cases m with
    | dict kvs => exact absurd rfl (hm kvs)
    | none => rfl
    | bool b => rfl
    | int n => rfl
    | float q => rfl
    | str s => rfl
    | list xs => rfl
    | obj o => rfl

theorem C6_witness :
    getField (validate_prescription_data (.dict [("medication", .list [])])) "medication"
      = some (.list []) ∧
    validate_medication (.int 7) = default_medication :=
  ⟨C6_entry_isolation.1 [] [], C6_entry_isolation.2.1 (.int 7)
    (fun kvs h => PyVal.noConfusion h)⟩

/-- C7 counterexample: `validate_supplier_bill_data` returns a pydantic
`SupplierBillDto`, not a mapping, so re-normalizing its own output (the DTO
object) raises at the initial `\x7b**defaults, **data\x7d` merge and falls
back to the all-default record — `bill_number` `"B"` becomes `""`, so
re-normalization is not the identity. -/
theorem C7_counterexample :
    (validate_supplier_bill_data (.dict [("bill_number", .str "B")])).bill_number
      = "B" ∧
    validate_supplier_bill_data (.obj (validate_supplier_bill_data
      (.dict [("bill_number", .str "B")])))
      = create_supplier_bill_dto default_supplier_bill ∧
    (create_supplier_bill_dto default_supplier_bill).bill_number = "" ∧
    ("" : String) ≠ "B" :=
  ⟨rfl, rfl, rfl, by decide⟩

/-- C7 (amended): `validate_prescription_data` is idempotent — feeding any
output back in as raw input reproduces it exactly; `validate_supplier_bill_data`
is not, because its output is a pydantic DTO object, and re-normalizing any
such object always yields the record built from `default_supplier_bill`. -/
theorem C7_amended :
    (∀ v : PyVal, validate_prescription_data (validate_prescription_data v)
      = validate_prescription_data v) ∧
    (∀ v : PyVal, validate_supplier_bill_data (.obj (validate_supplier_bill_data v))
      = create_supplier_bill_dto default_supplier_bill) :=
  ⟨validate_prescription_idem, fun _ => rfl⟩

/-- C1 counterexample: the output is not always a structurally valid record
of the schema — a raw food flag value is passed through without boolean
coercion, so `\x7b"medication": [\x7b"food": \x7b"lunch": "yes"\x7d\x7d]\x7d`
yields a record whose `food.lunch` is the string `"yes"`, not a boolean as
the FoodSchedule requires. -/
theorem C1_counterexample :
    getField (validate_prescription_data (.dict [("medication",
      .list [.dict [("food", .dict [("lunch", .str "yes")])]])])) "medication"
      = some (.list [.dict (validate_medication
          (.dict [("food", .dict [("lunch", .str "yes")])]))]) ∧
    dget (validate_medication (.dict [("food", .dict [("lunch", .str "yes")])])) "food"
      = some (.dict (dmerge default_food [("lunch", .str "yes")])) ∧
    dget (dmerge default_food [("lunch", .str "yes")]) "lunch" = some (.str "yes") ∧
    PyVal.str "yes" ≠ PyVal.bool true ∧
    PyVal.str "yes" ≠ PyVal.bool false :=
  ⟨rfl, rfl, rfl, by simp, by simp⟩

/-- C1 (amended): both normalizers are total and fall back to full defaults
on non-mapping input — `validate_prescription_data` then returns the record
built from `default_prescription` and `validate_supplier_bill_data` the DTO
built from `default_supplier_bill`; on every input the prescription result
is a mapping in prescription normal form (all schema keys present, `age` an
int, the seven coerced string fields strings, `medication` a list of
normalized entries) and every medication entry is in medication normal form
(flags sub-dicts complete, string/int/bool coerced fields well-typed,
tapering `None` or a nonempty normalized list).  Nested flag values and
tapering `days`, however, are passed through untyped, so validity in the
strict sense of the schema's declared field types does not hold. -/
theorem C1_totality_and_default_fallback :
    (∀ v : PyVal, (∀ kvs, v ≠ .dict kvs) →
      validate_prescription_data v = .dict default_prescription ∧
      validate_supplier_bill_data v = create_supplier_bill_dto default_supplier_bill) ∧
    (∀ v : PyVal, ∃ O, validate_prescription_data v = .dict O ∧ PresNormal O) ∧
    (∀ m : PyVal, MedNormal (validate_medication m)) := by
  refine ⟨?_, validate_prescription_normal, validate_medication_normal⟩
  intro v hv
  cases v with
  | dict kvs => exact absurd rfl (hv kvs)
  | none => exact ⟨rfl, rfl⟩
  | bool b => exact ⟨rfl, rfl⟩
  | int n => exact ⟨rfl, rfl⟩
  | float q => exact ⟨rfl, rfl⟩
  | str s => exact ⟨rfl, rfl⟩
  | list xs => exact ⟨rfl, rfl⟩
  | obj o => exact ⟨rfl, rfl⟩

theorem C1_witness :
    validate_prescription_data (.list [.int 1]) = .dict default_prescription ∧
    validate_supplier_bill_data (.list [.int 1])
      = create_supplier_bill_dto default_supplier_bill :=
  C1_totality_and_default_fallback.1 (.list [.int 1]) (fun kvs h => PyVal.noConfusion h)

/-- C4 counterexample: numeric fields are not guaranteed non-negative — a raw
`age` of -3 passes `int()` unchanged and a raw `mrp` of -5.0 passes `float()`
unchanged, so both negative values survive into the output record. -/
theorem C4_counterexample :
    getField (validate_prescription_data (.dict [("age", .int (-3))])) "age"
      = some (.int (-3)) ∧
    (-3 : Int) < 0 ∧
    dget (validate_supplier_medicine (.dict [("mrp", .float (-5))])) "mrp"
      = some (.float (-5)) ∧
    (-5 : Rat) < 0 :=
  ⟨rfl, by decide, rfl, by decide⟩

/-- C4 (amended): every numeric field of the output is a well-typed int /
float produced by the permissive coercion `int(x) if x else 0` /
`float(x) if x else 0.0` under a catch-all handler: falsy and unparseable
raw values become 0 / 0.0 and nothing raises — but negative raw numerics
pass through, so the fields are not non-negative in general. -/
theorem C4_numeric_coercion :
    (∀ (kvs : List (String × PyVal)) (ms : List PyVal),
      pyIter ((dget kvs "medication").getD (.list [])) = some ms →
      getField (validate_prescription_data (.dict kvs)) "age"
        = some (.int (coerceInt ((dget kvs "age").getD (.int 0))))) ∧
    (∀ kvs : List (String × PyVal),
      dget (validate_supplier_medicine (.dict kvs)) "quantity"
        = some (.int (coerceInt ((dget kvs "quantity").getD (.int 0)))) ∧
      dget (validate_supplier_medicine (.dict kvs)) "mrp"
        = some (.float (coerceFloat ((dget kvs "mrp").getD (.float 0)))) ∧
      dget (validate_supplier_medicine (.dict kvs)) "buying_price"
        = some (.float (coerceFloat ((dget kvs "buying_price").getD (.float 0))))) ∧
    (∀ x : PyVal, pyInt x = Option.none → coerceInt x = 0) ∧
    (∀ x : PyVal, pyFloat x = Option.none → coerceFloat x = 0) := by
  refine ⟨fun kvs ms hiter => pres_age hiter, ?_, ?_, ?_⟩
  · intro kvs
    obtain ⟨_, _, _, h4, h5, h6, _⟩ := validate_supplier_medicine_out kvs
    exact ⟨h4, h5, h6⟩
  · intro x h
    unfold coerceInt
    rw [h]
    cases pyTruthy x <;> rfl
  · intro x h
    unfold coerceFloat
    rw [h]
    cases pyTruthy x <;> rfl

theorem C4_witness :
    getField (validate_prescription_data (.dict [("age", .str "abc")])) "age"
      = some (.int (coerceInt ((dget [("age", PyVal.str "abc")] "age").getD (.int 0)))) ∧
    coerceInt (.list [.int 1]) = 0 :=
  ⟨C4_numeric_coercion.1 [("age", .str "abc")] [] rfl,
   C4_numeric_coercion.2.2.1 (.list [.int 1]) rfl⟩

/-- C8 counterexample: flags are not coerced to booleans — a raw
`\x7b"frequency": \x7b"bid": "x"\x7d\x7d` puts the string `"x"` into the
output `bid` flag, which is neither `true` nor `false`. -/
theorem C8_counterexample :
    dget (validate_medication (.dict [("frequency", .dict [("bid", .str "x")])]))
      "frequency"
      = some (.dict (dmerge default_frequency [("bid", .str "x")])) ∧
    dget (dmerge default_frequency [("bid", .str "x")]) "bid" = some (.str "x") ∧
    PyVal.str "x" ≠ PyVal.bool true ∧
    PyVal.str "x" ≠ PyVal.bool false :=
  ⟨rfl, rfl, by simp, by simp⟩

/-- C8 (amended): whenever the entry's `food`/`frequency` values are mappings
(or absent) and tapering does not throw, the output contains all 4 food and
all 18 frequency flags: a flag is `false` when the raw sub-dict does not
supply it, and otherwise is the raw value passed through unchanged (no
boolean coercion).  The spec's example `\x7b"frequency": \x7b"bid":
true\x7d\x7d` produces `bid = true` and the other 17 flags `false`. -/
theorem C8_partial_merge :
    (∀ kvs fkvs qkvs : List (String × PyVal),
      (dget kvs "food").getD (.dict []) = .dict fkvs →
      (dget kvs "frequency").getD (.dict []) = .dict qkvs →
      taperingOk kvs = true →
      (∃ fd, dget (validate_medication (.dict kvs)) "food" = some (.dict fd) ∧
        ∀ k ∈ keys default_food, dget fd k = some ((dget fkvs k).getD (.bool false))) ∧
      (∃ qd, dget (validate_medication (.dict kvs)) "frequency" = some (.dict qd) ∧
        ∀ k ∈ keys default_frequency,
          dget qd k = some ((dget qkvs k).getD (.bool false)))) ∧
    dget (validate_medication (.dict [("frequency", .dict [("bid", .bool true)])]))
      "frequency"
      = some (.dict
          [("od", .bool false), ("bid", .bool true), ("tid", .bool false),
           ("qid", .bool false), ("hs", .bool false), ("ac", .bool false),
           ("pc", .bool false), ("qam", .bool false), ("qpm", .bool false),
           ("bs", .bool false), ("q6h", .bool false), ("q8h", .bool false),
           ("q12h", .bool false), ("qod", .bool false), ("q1w", .bool false),
           ("q2w", .bool false), ("q3w", .bool false), ("q1m", .bool false)]) := by
  refine ⟨?_, rfl⟩
  intro kvs fkvs qkvs hf hq htok
  obtain ⟨h1, h2, _⟩ := vm_out_fields hf hq htok
  constructor
  · exact ⟨dmerge default_food fkvs, h1,
      fun k hk => dget_dmerge_left (dget_default_food_flag hk) fkvs⟩
  · exact ⟨dmerge default_frequency qkvs, h2,
      fun k hk => dget_dmerge_left (dget_default_frequency_flag hk) qkvs⟩

theorem C8_witness :
    ∃ qd, dget (validate_medication (.dict [("frequency", .dict [("bid", .bool true)])]))
      "frequency" = some (.dict qd) ∧
      ∀ k ∈ keys default_frequency,
        dget qd k = some ((dget [("bid", PyVal.bool true)] k).getD (.bool false)) :=
  (C8_partial_merge.1 [("frequency", .dict [("bid", .bool true)])] []
    [("bid", .bool true)] rfl rfl rfl).2

/-- C9 counterexample: medication string fields use the truthiness idiom
`str(x) if x else ""`, not "stringify if not null": raw `medicine_name = 0`
is falsy and non-null, and becomes `""` instead of its stringification
`"0"`. -/
theorem C9_counterexample :
    getField (validate_prescription_data (.dict [("medication",
      .list [.dict [("medicine_name", .int 0)]])])) "medication"
      = some (.list [.dict (validate_medication (.dict [("medicine_name", .int 0)]))]) ∧
    dget (validate_medication (.dict [("medicine_name", .int 0)])) "medicine_name"
      = some (.str "") ∧
    pyStr (.int 0) = "0" ∧
    ("" : String) ≠ "0" :=
  ⟨rfl, rfl, rfl, by decide⟩

/-- C9 (amended): two distinct stringification regimes coexist.  The seven
top-level prescription fields and the ten supplier fields follow "stringify
if present and non-null, else empty string" (the identity on strings).  The
medication entry fields `medicine_name`/`dosage` and the supplier medicine
line string fields follow "stringify if truthy, else empty string", so falsy
non-null raw values (0, False, empty containers) become `""` rather than
their stringification. -/
theorem C9_string_coercion :
    (∀ (kvs : List (String × PyVal)) (ms : List PyVal) (f : String),
      pyIter ((dget kvs "medication").getD (.list [])) = some ms →
      f ∈ presStringFields →
      getField (validate_prescription_data (.dict kvs)) f
        = some (.str (strNull ((dget kvs f).getD (.str ""))))) ∧
    (∀ (kvs : List (String × PyVal)) (f : String), f ∈ supplierFields →
      dget (validate_supplier (.dict kvs)) f
        = some (.str (strNull ((dget kvs f).getD (.str ""))))) ∧
    (∀ kvs fkvs qkvs : List (String × PyVal),
      (dget kvs "food").getD (.dict []) = .dict fkvs →
      (dget kvs "frequency").getD (.dict []) = .dict qkvs →
      taperingOk kvs = true →
      dget (validate_medication (.dict kvs)) "medicine_name"
        = some (.str (strTruthy ((dget kvs "medicine_name").getD (.str "")))) ∧
      dget (validate_medication (.dict kvs)) "dosage"
        = some (.str (strTruthy ((dget kvs "dosage").getD (.str ""))))) ∧
    (∀ kvs : List (String × PyVal),
      dget (validate_supplier_medicine (.dict kvs)) "medicine_name"
        = some (.str (strTruthy ((dget kvs "medicine_name").getD (.str "")))) ∧
      dget (validate_supplier_medicine (.dict kvs)) "dosage"
        = some (.str (strTruthy ((dget kvs "dosage").getD (.str "")))) ∧
      dget (validate_supplier_medicine (.dict kvs)) "expiry_date"
        = some (.str (strTruthy ((dget kvs "expiry_date").getD (.str "")))) ∧
      dget (validate_supplier_medicine (.dict kvs)) "batch_number"
        = some (.str (strTruthy ((dget kvs "batch_number").getD (.str "")))) ∧
      dget (validate_supplier_medicine (.dict kvs)) "manufacturer"
        = some (.str (strTruthy ((dget kvs "manufacturer").getD (.str ""))))) := by
  refine ⟨fun kvs ms f hiter hf => pres_strfield hiter hf,
    fun kvs f hf => validate_supplier_out kvs hf, ?_, ?_⟩
  · intro kvs fkvs qkvs hf hq htok
    obtain ⟨_, _, h3, h4, _⟩ := vm_out_fields hf hq htok
    exact ⟨h3, h4⟩
  · intro kvs
    obtain ⟨h1, h2, h3, _, _, _, _, h8, h9⟩ := validate_supplier_medicine_out kvs
    exact ⟨h1, h2, h3, h8, h9⟩

theorem C9_witness :
    getField (validate_prescription_data (.dict [("diagnosis", .int 7)])) "diagnosis"
      = some (.str (strNull ((dget [("diagnosis", PyVal.int 7)] "diagnosis").getD
          (.str "")))) ∧
    dget (validate_supplier (.dict [])) "name"
      = some (.str (strNull ((dget ([] : List (String × PyVal)) "name").getD
          (.str "")))) ∧
    dget (validate_medication (.dict [("medicine_name", .int 0)])) "medicine_name"
      = some (.str (strTruthy ((dget [("medicine_name", PyVal.int 0)]
          "medicine_name").getD (.str "")))) :=
  ⟨C9_string_coercion.1 [("diagnosis", .int 7)] [] "diagnosis" rfl (by decide),
   C9_string_coercion.2.1 [] "name" (by decide),
   (C9_string_coercion.2.2.1 [("medicine_name", .int 0)] [] [] rfl rfl rfl).1⟩

/-- C10 counterexample: extraneous keys are not always retained — when the
raw `medication` value is a non-iterable scalar the whole normalization
throws and returns the bare defaults, dropping the extraneous key
`"extra"`. -/
theorem C10_counterexample :
    validate_prescription_data (.dict [("extra", .int 7), ("medication", .int 5)])
      = .dict default_prescription ∧
    getField (.dict default_prescription) "extra" = Option.none ∧
    dget [("extra", PyVal.int 7), ("medication", PyVal.int 5)] "extra"
      = some (.int 7) :=
  ⟨rfl, rfl, rfl⟩

/-- C10 (amended): for every mapping input whose `medication` value is
iterable (absent, a list, a string, or a mapping — so the normalization does
not throw), every top-level key outside the prescription schema is retained
in the output with its raw value unchanged; when `medication` is a
non-iterable scalar the result is the bare default record and extraneous
keys are dropped. -/
theorem C10_extraneous_keys :
    (∀ (kvs : List (String × PyVal)) (ms : List PyVal) (k : String),
      pyIter ((dget kvs "medication").getD (.list [])) = some ms →
      k ∉ keys default_prescription →
      getField (validate_prescription_data (.dict kvs)) k = dget kvs k) ∧
    (∀ kvs : List (String × PyVal),
      pyIter ((dget kvs "medication").getD (.list [])) = Option.none →
      validate_prescription_data (.dict kvs) = .dict default_prescription) :=
  ⟨fun kvs ms k hiter hk => pres_extraneous hiter hk,
   fun kvs h => pres_default_of_not_iterable h⟩

theorem C10_witness :
    getField (validate_prescription_data (.dict [("extra", .int 7)])) "extra"
      = dget [("extra", PyVal.int 7)] "extra" ∧
    validate_prescription_data (.dict [("medication", .int 5)])
      = .dict default_prescription :=
  ⟨C10_extraneous_keys.1 [("extra", .int 7)] [] "extra" rfl (by decide),
   C10_extraneous_keys.2 [("medication", .int 5)] rfl⟩
